import Mathlib

/-!
Verification of the transcript-formatting layer and the authentication glue of
the `whisperx-api-server` repository.

The Python source (`src/whisperx_api_server/formatters.py` and
`src/whisperx_api_server/dependencies.py`) is shallowly embedded:

* Python JSON-like values (`dict`, `list`, `str`, numbers, booleans, `None`)
  become the inductive type `Value`; dicts are insertion-ordered association
  lists, matching CPython dict semantics for the unique-key dicts the code
  builds.
* Python floats are modelled as exact rationals (`Rat`).
* Code that can raise returns `Except Err`; the `Err` constructors mirror the
  Python exception classes that the modelled code can actually raise
  (`ValueError`, `KeyError`, `TypeError`, `AttributeError`).
* The external `whisperx.utils` writer classes (`WriteSRT`, `WriteVTT`,
  `WriteAudacity`) are outside this repository; per the specification their
  only visible contract is to turn a segments record and an options dict into
  output text, so each writer is a function parameter
  `Value → List (String × Value) → String`.
-/

/-- A Python JSON-like value: `None`, `bool`, numbers (floats modelled as
exact rationals), `str`, `list`, and insertion-ordered `dict`. -/
inductive Value where
  | null : Value
  | bool (b : Bool) : Value
  | num (q : Rat) : Value
  | str (s : String) : Value
  | list (xs : List Value) : Value
  | dict (kvs : List (String × Value)) : Value

/-- Association-list lookup, first occurrence wins: models Python `d[k]` /
`d.get(k)` for string-keyed dicts. -/
def alookup {α : Type} : List (String × α) → String → Option α
  | [], _ => none
  | (k', v) :: rest, k => if k' = k then some v else alookup rest k

/-- Models CPython `d[k] = v` on an insertion-ordered dict: replaces the value
at the first occurrence of `k`, keeping its position, or appends a new entry. -/
def setKey {α : Type} : List (String × α) → String → α → List (String × α)
  | [], k, v => [(k, v)]
  | (k', v') :: rest, k, v =>
    if k' = k then (k, v) :: rest else (k', v') :: setKey rest k v

/-- Python `d.get(k, default)` on a dict given as an association list. -/
def pyGetD (kvs : List (String × Value)) (k : String) (d : Value) : Value :=
  (alookup kvs k).getD d

/-- Errors the embedded code can raise, mirroring the Python exception
classes: `ValueError(msg)`, `KeyError(key)`, `TypeError`, `AttributeError`. -/
inductive Err where
  | valueError (msg : String) : Err
  | keyError (k : String) : Err
  | typeError : Err
  | attributeError : Err
deriving DecidableEq

/-- Python `obj.get(k, default)` where `obj` may not be a dict: a non-dict
receiver raises `AttributeError` (no `.get` attribute). -/
def pyGet (t : Value) (k : String) (d : Value) : Except Err Value :=
  match t with
  | .dict kvs => .ok (pyGetD kvs k d)
  | _ => .error .attributeError

/-- Python `t[k] = v` item assignment on a value that must be a dict
(non-dicts with string keys raise `TypeError`). -/
def setItem (t : Value) (k : String) (v : Value) : Except Err Value :=
  match t with
  | .dict kvs => .ok (.dict (setKey kvs k v))
  | _ => .error .typeError

/-- Python truthiness of a value (`if x:`). -/
def truthy : Value → Bool
  | .null => false
  | .bool b => b
  | .num q => decide (q ≠ 0)
  | .str s => decide (s ≠ (""))
  | .list xs => !xs.isEmpty
  | .dict kvs => !kvs.isEmpty

/-- Python `str()` of a value, as interpolated by the source's f-strings.
Faithful on strings (identity), booleans, `None` and integral numbers;
non-integral rationals and containers are printed in a simple repr-like
form (no claim in scope depends on their exact rendering). -/
def strOfValue : Value → String
  | .str s => s
  | .bool true => ("True")
  | .bool false => ("False")
  | .null => ("None")
  | .num q => if q.den = 1 then toString q.num else toString q
  | .list _ => ("[...]")
  | .dict _ => ("\x7b...\x7d")

/-- `formatters._format_timestamp`: format seconds as MM:SS or HH:MM:SS.
`pad2` models the f-string field `{n:02d}` (left zero-padding to width 2). -/
def pad2 (n : Int) : String :=
  let s := toString n
  if s.length < 2 then ("0") ++ s else s

/-- Python's float modulo `a % b` for `b > 0` (exact arithmetic on
rationals): `a - b * (a // b)` where `//` is floor division. -/
def pymod (a b : Rat) : Rat := a - b * ((Int.floor (a / b) : Int) : Rat)

/-- `formatters._format_timestamp(seconds)`: `hours = int(seconds // 3600)`,
`minutes = int((seconds % 3600) // 60)`, `secs = int(seconds % 60)`; the
`int(...)` truncations coincide with floors because the operands are
an integral float resp. nonnegative values. -/
def _format_timestamp (seconds : Rat) : String :=
  let hours : Int := Int.floor (seconds / 3600)
  let minutes : Int := Int.floor (pymod seconds 3600 / 60)
  let secs : Int := Int.floor (pymod seconds 60)
  if hours > 0 then pad2 hours ++ (":") ++ pad2 minutes ++ (":") ++ pad2 secs
  else pad2 minutes ++ (":") ++ pad2 secs

/-- Python's default whitespace for `str.strip()` (the ASCII part: space,
tab, newline, carriage return, vertical tab, form feed). -/
def isPySpace (c : Char) : Bool :=
  c = (' ') || c = ('\t') || c = ('\n') || c = ('\r') || c = ('\x0b') || c = ('\x0c')

/-- Python `str.strip()`: whitespace removed from both ends. -/
def pyStrip (s : String) : String :=
  String.mk (((s.data.dropWhile isPySpace).reverse.dropWhile isPySpace).reverse)

/-- `segment.get("speaker", "Unknown")` rendered by the f-strings of the
markdown formatters: a non-dict segment raises `AttributeError` at `.get`. -/
def segSpeaker (seg : Value) : Except Err String :=
  match seg with
  | .dict kvs => .ok (strOfValue (pyGetD kvs ("speaker") (Value.str (("Unknown")))))
  | _ => .error .attributeError

/-- `segment.get("text", "").strip()`: a non-dict segment raises
`AttributeError` at `.get`, a non-string `text` value raises
`AttributeError` at `.strip`. -/
def segText (seg : Value) : Except Err String :=
  match seg with
  | .dict kvs =>
    match pyGetD kvs ("text") (Value.str ("")) with
    | .str s => .ok (pyStrip s)
    | _ => .error .attributeError
  | _ => .error .attributeError

/-- `segment.get("start", 0)` used as a number by `_format_timestamp`:
non-numeric values raise `TypeError` in the float arithmetic; booleans are
numeric in Python (`True == 1`, `False == 0`). -/
def segStart (seg : Value) : Except Err Rat :=
  match seg with
  | .dict kvs =>
    match pyGetD kvs ("start") (Value.num 0) with
    | .num q => .ok q
    | .bool b => .ok (if b then 1 else 0)
    | _ => .error .typeError
  | _ => .error .attributeError

/-- `formatters._get_segments`: `transcript.get("segments", {})`, then
`segments.get("segments", [])` when that is a dict, else the value itself.
Iterating a non-list container in the calling formatter raises: the
iteration errors are folded in here (`TypeError` for non-iterables;
for a string, its characters raise `AttributeError` at `.get` unless the
string is empty, in which case the loop body never runs). -/
def _get_segments (t : Value) : Except Err (List Value) :=
  match t with
  | .dict kvs =>
    match pyGetD kvs ("segments") (Value.dict []) with
    | .dict skvs =>
      match pyGetD skvs ("segments") (Value.list []) with
      | .list xs => .ok xs
      | .str s => if s = ("") then .ok [] else .error .attributeError
      | _ => .error .typeError
    | .list xs => .ok xs
    | .str s => if s = ("") then .ok [] else .error .attributeError
    | _ => .error .typeError
  | _ => .error .attributeError

/-- Loop body lines of `formatters.format_md_basic`: for each segment,
speaker and stripped text are read, blank segments are skipped, and each
emitted message line is followed by an empty line. -/
def mdBasicLines (b : Bool) : List Value → Except Err (List String)
  | [] => .ok []
  | seg :: rest =>
    match segSpeaker seg with
    | .error e => .error e
    | .ok sp =>
      match segText seg with
      | .error e => .error e
      | .ok tx =>
        if tx = ("") then mdBasicLines b rest
        else
          match
            (if b then
              (segStart seg).map (fun st => sp ++ (" [") ++ _format_timestamp st ++ ("]: ") ++ tx)
            else .ok (sp ++ (": ") ++ tx)) with
          | .error e => .error e
          | .ok line =>
            match mdBasicLines b rest with
            | .error e => .error e
            | .ok tail => .ok (line :: ("") :: tail)

/-- `formatters.format_md_basic`: markdown paragraphs,
`"\n".join(lines).strip()`. -/
def format_md_basic (t : Value) (include_timestamps : Bool) : Except Err String :=
  match _get_segments t with
  | .error e => .error e
  | .ok segs =>
    match mdBasicLines include_timestamps segs with
    | .error e => .error e
    | .ok lines => .ok (pyStrip (String.intercalate ("\n") lines))

/-- Loop body lines of `formatters.format_md_list`: bullet list entries,
blank segments skipped, no separator lines. -/
def mdListLines (b : Bool) : List Value → Except Err (List String)
  | [] => .ok []
  | seg :: rest =>
    match segSpeaker seg with
    | .error e => .error e
    | .ok sp =>
      match segText seg with
      | .error e => .error e
      | .ok tx =>
        if tx = ("") then mdListLines b rest
        else
          match
            (if b then
              (segStart seg).map (fun st => ("- **") ++ sp ++ ("** [") ++ _format_timestamp st ++ ("]: ") ++ tx)
            else .ok (("- **") ++ sp ++ ("**: ") ++ tx)) with
          | .error e => .error e
          | .ok line =>
            match mdListLines b rest with
            | .error e => .error e
            | .ok tail => .ok (line :: tail)

/-- `formatters.format_md_list`: `"\n".join(lines)`. -/
def format_md_list (t : Value) (include_timestamps : Bool) : Except Err String :=
  match _get_segments t with
  | .error e => .error e
  | .ok segs =>
    match mdListLines include_timestamps segs with
    | .error e => .error e
    | .ok lines => .ok (String.intercalate ("\n") lines)

/-- Loop body lines of `formatters.format_md_quote`: blockquote entries,
each followed by an empty blockquote line `">"`. -/
def mdQuoteLines (b : Bool) : List Value → Except Err (List String)
  | [] => .ok []
  | seg :: rest =>
    match segSpeaker seg with
    | .error e => .error e
    | .ok sp =>
      match segText seg with
      | .error e => .error e
      | .ok tx =>
        if tx = ("") then mdQuoteLines b rest
        else
          match
            (if b then
              (segStart seg).map (fun st => ("> **") ++ sp ++ ("** [") ++ _format_timestamp st ++ ("]: ") ++ tx)
            else .ok (("> **") ++ sp ++ ("**: ") ++ tx)) with
          | .error e => .error e
          | .ok line =>
            match mdQuoteLines b rest with
            | .error e => .error e
            | .ok tail => .ok (line :: (">") :: tail)

/-- `formatters.format_md_quote`: removes the trailing `">"` spacing line
(`if lines and lines[-1] == ">": lines.pop()`), then `"\n".join(lines)`. -/
def format_md_quote (t : Value) (include_timestamps : Bool) : Except Err String :=
  match _get_segments t with
  | .error e => .error e
  | .ok segs =>
    match mdQuoteLines include_timestamps segs with
    | .error e => .error e
    | .ok lines =>
      let lines2 := if lines.getLast? = some (">") then lines.dropLast else lines
      .ok (String.intercalate ("\n") lines2)

/-- The speaker sequence generated inside `formatters.format_md_table`:
`seg.get("speaker", "Unknown") for seg in segments if seg.get("text", "").strip()`
(the `if` clause is evaluated before the value expression). -/
def tableSpeakerSeq : List Value → Except Err (List String)
  | [] => .ok []
  | seg :: rest =>
    match segText seg with
    | .error e => .error e
    | .ok tx =>
      if tx = ("") then tableSpeakerSeq rest
      else
        match segSpeaker seg with
        | .error e => .error e
        | .ok sp =>
          match tableSpeakerSeq rest with
          | .error e => .error e
          | .ok tail => .ok (sp :: tail)

/-- Worker for `dedupFirst`. -/
def dedupGo (seen : List String) : List String → List String
  | [] => []
  | x :: xs => if x ∈ seen then dedupGo seen xs else x :: dedupGo (x :: seen) xs

/-- `list(OrderedDict.fromkeys(...))`: deduplicate preserving the first
occurrence of each key. -/
def dedupFirst (xs : List String) : List String := dedupGo [] xs

/-- Loop body lines of `formatters._format_two_speaker_table`: pipe
characters in the text are escaped, an optional timestamp is prefixed, and
the text is placed in the column of its speaker (first column iff the
speaker equals `speakers[0]`). -/
def twoSpeakerLines (s0 : String) (b : Bool) : List Value → Except Err (List String)
  | [] => .ok []
  | seg :: rest =>
    match segSpeaker seg with
    | .error e => .error e
    | .ok sp =>
      match segText seg with
      | .error e => .error e
      | .ok tx =>
        if tx = ("") then twoSpeakerLines s0 b rest
        else
          let tx1 := tx.replace ("|") ("\\|")
          match
            (if b then
              (segStart seg).map (fun st => ("[") ++ _format_timestamp st ++ ("] ") ++ tx1)
            else .ok tx1) with
          | .error e => .error e
          | .ok tx2 =>
            let cols := if sp = s0 then (tx2, ("")) else ((""), tx2)
            match twoSpeakerLines s0 b rest with
            | .error e => .error e
            | .ok tail => .ok ((("| ") ++ cols.1 ++ (" | ") ++ cols.2 ++ (" |")) :: tail)

/-- `formatters._format_two_speaker_table(segments, speakers, include_timestamps)`
(the two elements of `speakers` are passed separately). -/
def _format_two_speaker_table (segs : List Value) (s0 s1 : String) (b : Bool) : Except Err String :=
  match twoSpeakerLines s0 b segs with
  | .error e => .error e
  | .ok ls =>
    .ok (String.intercalate ("\n")
      (((("| ") ++ s0 ++ (" | ") ++ s1 ++ (" |"))) :: ("| --- | --- |") :: ls))

/-- Loop body lines of `formatters._format_multi_speaker_table`. -/
def multiSpeakerLines (b : Bool) : List Value → Except Err (List String)
  | [] => .ok []
  | seg :: rest =>
    match segSpeaker seg with
    | .error e => .error e
    | .ok sp =>
      match segText seg with
      | .error e => .error e
      | .ok tx =>
        if tx = ("") then multiSpeakerLines b rest
        else
          let tx1 := tx.replace ("|") ("\\|")
          match
            (if b then
              (segStart seg).map (fun st => ("| ") ++ _format_timestamp st ++ (" | ") ++ sp ++ (" | ") ++ tx1 ++ (" |"))
            else .ok (("| ") ++ sp ++ (" | ") ++ tx1 ++ (" |"))) with
          | .error e => .error e
          | .ok line =>
            match multiSpeakerLines b rest with
            | .error e => .error e
            | .ok tail => .ok (line :: tail)

/-- `formatters._format_multi_speaker_table(segments, include_timestamps)`. -/
def _format_multi_speaker_table (segs : List Value) (b : Bool) : Except Err String :=
  match multiSpeakerLines b segs with
  | .error e => .error e
  | .ok ls =>
    .ok (String.intercalate ("\n")
      ((if b then [("| Time | Speaker | Message |"), ("| --- | --- | --- |")]
        else [("| Speaker | Message |"), ("| --- | --- |")]) ++ ls))

/-- `formatters.format_md_table`: collect the unique speakers of non-blank
segments in order of first appearance; use the two-column layout exactly
when there are two of them, else the multi-column layout. -/
def format_md_table (t : Value) (include_timestamps : Bool) : Except Err String :=
  match _get_segments t with
  | .error e => .error e
  | .ok segs =>
    match tableSpeakerSeq segs with
    | .error e => .error e
    | .ok sps =>
      match dedupFirst sps with
      | [s0, s1] => _format_two_speaker_table segs s0 s1 include_timestamps
      | _ => _format_multi_speaker_table segs include_timestamps

/-- `formatters.update_options(kwargs, defaults)`: the result has exactly the
keys of `defaults`, in order, each value overridden by `kwargs` when present
(`options[key] = kwargs.get(key, defaults[key])`). -/
def update_options (kwargs defaults : List (String × Value)) : List (String × Value) :=
  defaults.map (fun kv => (kv.1, pyGetD kwargs kv.1 kv.2))

/-- `formatters.handle_whisperx_format(transcript, writer_class, options)`.
The external whisperx writer is the parameter `writer`: it receives
`transcript["segments"]` (after the mutation) and `options` and produces the
text captured by the in-memory `ListWriter`.  The statement
`transcript["segments"]["language"] = transcript["language"]` evaluates its
right-hand side first (`KeyError` if `"language"` is missing), then
subscripts `transcript["segments"]` (`KeyError` if missing) and item-assigns
into it (`TypeError` unless it is a dict).  The returned `Value` is the
transcript after the in-place mutation. -/
def handle_whisperx_format (writer : Value → List (String × Value) → String)
    (t : Value) (options : List (String × Value)) : Except Err (Value × String) :=
  match t with
  | .dict kvs =>
    match alookup kvs ("language") with
    | none => .error (.keyError ("language"))
    | some lang =>
      match alookup kvs ("segments") with
      | none => .error (.keyError ("segments"))
      | some (.dict skvs) =>
        let skvs2 := setKey skvs ("language") lang
        .ok (.dict (setKey kvs ("segments") (.dict skvs2)), writer (.dict skvs2) options)
      | some _ => .error .typeError
  | _ => .error .typeError

/-- Modelled from the spec: the `MediaType` constants of
`whisperx_api_server.config` (a module not under `src/`), whose members are
named by the formatters: `APPLICATION_JSON`, `TEXT_PLAIN`, `TEXT_VTT`,
`TEXT_MARKDOWN` — i.e. the media types application/json, text/plain,
text/vtt and text/markdown. -/
inductive MediaType where
  | APPLICATION_JSON : MediaType
  | TEXT_PLAIN : MediaType
  | TEXT_VTT : MediaType
  | TEXT_MARKDOWN : MediaType
deriving DecidableEq

/-- A FastAPI `Response`/`JSONResponse` as visible to this layer: its content
(`Value` for JSON responses, a `Value.str` for plain responses) and its media
type. -/
structure Resp where
  content : Value
  media_type : MediaType

/-- `formatters.format_transcription(transcript, format, **kwargs)`.
Returns the transcript as left after the call (the writer-based branches
mutate it in place) together with the response.  The three writer
parameters stand for the external `WriteSRT`, `WriteVTT`, `WriteAudacity`
writer classes. -/
def format_transcription (wSRT wVTT wAUD : Value → List (String × Value) → String)
    (t : Value) (format : String) (kwargs : List (String × Value)) :
    Except Err (Value × Resp) :=
  let defaults : List (String × Value) :=
    [(("max_line_width"), Value.num 1000),
     (("max_line_count"), Value.null),
     (("highlight_words"), pyGetD kwargs ("highlight_words") (Value.bool false))]
  let options := update_options kwargs defaults
  let include_timestamps := truthy (pyGetD kwargs ("include_timestamps") (Value.bool false))
  if format = ("json") then
    match pyGet t ("text") (Value.str ("")) with
    | .error e => .error e
    | .ok txt => .ok (t, ⟨Value.dict [(("text"), txt)], MediaType.APPLICATION_JSON⟩)
  else if format = ("verbose_json") then
    .ok (t, ⟨t, MediaType.APPLICATION_JSON⟩)
  else if format = ("vtt_json") then
    match handle_whisperx_format wVTT t options with
    | .error e => .error e
    | .ok (t1, out) =>
      match setItem t1 ("vtt_text") (Value.str out) with
      | .error e => .error e
      | .ok t2 => .ok (t2, ⟨t2, MediaType.APPLICATION_JSON⟩)
  else if format = ("text") then
    match pyGet t ("text") (Value.str ("")) with
    | .error e => .error e
    | .ok txt => .ok (t, ⟨txt, MediaType.TEXT_PLAIN⟩)
  else if format = ("srt") then
    match handle_whisperx_format wSRT t options with
    | .error e => .error e
    | .ok (t1, out) => .ok (t1, ⟨Value.str out, MediaType.TEXT_PLAIN⟩)
  else if format = ("vtt") then
    match handle_whisperx_format wVTT t options with
    | .error e => .error e
    | .ok (t1, out) => .ok (t1, ⟨Value.str out, MediaType.TEXT_VTT⟩)
  else if format = ("aud") then
    match handle_whisperx_format wAUD t options with
    | .error e => .error e
    | .ok (t1, out) => .ok (t1, ⟨Value.str out, MediaType.TEXT_PLAIN⟩)
  else if format = ("md_basic") then
    match format_md_basic t include_timestamps with
    | .error e => .error e
    | .ok c => .ok (t, ⟨Value.str c, MediaType.TEXT_MARKDOWN⟩)
  else if format = ("md_list") then
    match format_md_list t include_timestamps with
    | .error e => .error e
    | .ok c => .ok (t, ⟨Value.str c, MediaType.TEXT_MARKDOWN⟩)
  else if format = ("md_quote") then
    match format_md_quote t include_timestamps with
    | .error e => .error e
    | .ok c => .ok (t, ⟨Value.str c, MediaType.TEXT_MARKDOWN⟩)
  else if format = ("md_table") then
    match format_md_table t include_timestamps with
    | .error e => .error e
    | .ok c => .ok (t, ⟨Value.str c, MediaType.TEXT_MARKDOWN⟩)
  else .error (.valueError (("Unsupported format: ") ++ format))

/-- The eleven format names accepted by `format_transcription`. -/
def supportedFormats : List String :=
  [("json"), ("verbose_json"), ("vtt_json"), ("text"), ("srt"), ("vtt"),
   ("aud"), ("md_basic"), ("md_list"), ("md_quote"), ("md_table")]

/-- The media-type mapping asserted by the specification (claim C1), stated
in the spec's words: application/json for the three JSON formats, text/plain
for text, srt and aud, text/vtt for vtt, text/markdown for the markdown
formats. -/
def specMediaType (format : String) : MediaType :=
  if format = ("json") ∨ format = ("verbose_json") ∨ format = ("vtt_json") then
    MediaType.APPLICATION_JSON
  else if format = ("text") ∨ format = ("srt") ∨ format = ("aud") then
    MediaType.TEXT_PLAIN
  else if format = ("vtt") then MediaType.TEXT_VTT
  else MediaType.TEXT_MARKDOWN

/-- Whether an `Except` result is a success (Python: the call returned
instead of raising). -/
def exOk {α : Type} : Except Err α → Bool
  | .ok _ => true
  | .error _ => false

/-- A transcript whose `"segments"` key holds a plain list of segments:
statement scaffolding for the markdown-formatter claims. -/
def mkT (segs : List Value) : Value := Value.dict [(("segments"), Value.list segs)]

/-- A well-shaped segment record: a dict whose `"text"` value, if present,
is a string — the record shape the formatters are written for. -/
def segOk (v : Value) : Bool :=
  match v with
  | .dict kvs =>
    match pyGetD kvs ("text") (Value.str ("")) with
    | .str _ => true
    | _ => false
  | _ => false

/-- A blank segment: its `"text"` value strips to the empty string (such
segments are skipped by every markdown formatter). -/
def segBlank (v : Value) : Bool :=
  match segText v with
  | .ok tx => decide (tx = (""))
  | .error _ => false

/-- Modelled from the spec: the outcome of reading and JSON-parsing the
API-keys file at a path (`dependencies._load_api_keys_cached` plus the
`Path.stat` probe; the file system is not part of the repository).  The
file-mtime-based `lru_cache` is an optimisation with no visible effect on a
fixed file-system snapshot, so it is not represented. -/
inductive FileRead where
  | missing : FileRead
  | invalidJson : FileRead
  | json (m : List (String × String)) : FileRead
deriving DecidableEq

/-- `dependencies._get_api_keys(api_keys_file)`: `{}` when the configured
path is falsy (`None` or `""`), when the file is missing
(`FileNotFoundError`), or when its contents are not valid JSON
(`json.JSONDecodeError`); otherwise the parsed key-to-client-name mapping
(type-annotated `dict[str, str]` in the source). -/
def _get_api_keys (fs : String → FileRead) (api_keys_file : Option String) :
    List (String × String) :=
  match api_keys_file with
  | none => []
  | some p =>
    if p = ("") then []
    else
      match fs p with
      | .missing => []
      | .invalidJson => []
      | .json m => m

/-- A raised `fastapi.HTTPException`: status code and detail string. -/
structure HTTPException where
  status_code : Nat
  detail : String
deriving DecidableEq

/-- `dependencies.verify_api_key`: loads the key mapping, looks the bearer
credential up, and raises HTTP 403 "Invalid API Key" when the credential
differs from `config.api_key` and the lookup found nothing; otherwise it
only logs and returns.  `config` is represented by its two fields used
here (`api_keys_file`, `api_key`); `credentials.credentials` is `cred`. -/
def verify_api_key (fs : String → FileRead) (api_keys_file : Option String)
    (api_key : String) (cred : String) : Except HTTPException Unit :=
  let api_keys := _get_api_keys fs api_keys_file
  let client_name := alookup api_keys cred
  if cred ≠ api_key ∧ client_name = none then
    .error ⟨403, ("Invalid API Key")⟩
  else .ok ()

/-- The three observations a markdown formatter makes of a segment record. -/
def segObs (seg : Value) : Except Err String × Except Err String × Except Err Rat :=
  (segSpeaker seg, segText seg, segStart seg)

/-- The format names whose branches of `format_transcription` contain no
mutating statement. -/
def pureFormats : List String :=
  [("json"), ("verbose_json"), ("text"), ("md_basic"), ("md_list"),
   ("md_quote"), ("md_table")]

/-- The four markdown formatters, for claims quantifying over them. -/
def mdFormatters : List (Value → Bool → Except Err String) :=
  [format_md_basic, format_md_list, format_md_quote, format_md_table]

/-- A trivial stand-in for an external whisperx writer, used to instantiate
writer parameters in closed statements. -/
def wzero : Value → List (String × Value) → String := fun _ _ => ("")

/-- Probe: does the nested `"segments"` dict of a transcript carry a
`"language"` key? -/
def segmentsLangPresent (v : Value) : Bool :=
  match v with
  | .dict kvs =>
    match alookup kvs ("segments") with
    | some (.dict skvs) => (alookup skvs ("language")).isSome
    | _ => false
  | _ => false

theorem alookup_eq_none {α : Type} (l : List (String × α)) (k : String) :
    alookup l k = none ↔ k ∉ l.map Prod.fst := by
  induction l with
  | nil => simp [alookup]
  | cons p rest ih =>
    obtain ⟨k', v⟩ := p
    by_cases h : k' = k
    · subst h
      simp [alookup]
    · have h2 : ¬(k = k') := fun hh => h hh.symm
      simp [alookup, h, h2, ih]

theorem alookup_setKey_self {α : Type} (l : List (String × α)) (k : String) (v : α) :
    alookup (setKey l k v) k = some v := by
  induction l with
  | nil => simp [setKey, alookup]
  | cons p rest ih =>
    obtain ⟨k', v'⟩ := p
    by_cases h : k' = k <;> simp [setKey, alookup, h, ih]

theorem alookup_setKey_ne {α : Type} (l : List (String × α)) (k k' : String) (v : α)
    (h : k ≠ k') : alookup (setKey l k v) k' = alookup l k' := by
  induction l with
  | nil => simp [setKey, alookup, h]
  | cons p rest ih =>
    obtain ⟨k0, v0⟩ := p
    by_cases h0 : k0 = k
    · subst h0
      simp [setKey, alookup, h]
    · simp [setKey, alookup, h0, ih]

/-- C4: verify_api_key rejects with HTTP 403 "Invalid API Key" exactly when
the presented bearer credential differs from the configured default api_key
and is not a key of the mapping loaded from the API-keys file; in every
other case it returns without raising. -/
theorem verify_api_key_iff (fs : String → FileRead) (api_keys_file : Option String)
    (api_key cred : String) :
    (verify_api_key fs api_keys_file api_key cred = .error ⟨403, ("Invalid API Key")⟩
      ↔ (cred ≠ api_key ∧ cred ∉ (_get_api_keys fs api_keys_file).map Prod.fst))
    ∧ (¬(cred ≠ api_key ∧ cred ∉ (_get_api_keys fs api_keys_file).map Prod.fst) →
      verify_api_key fs api_keys_file api_key cred = .ok ()) := by
  unfold verify_api_key
  by_cases hc : cred ≠ api_key ∧ alookup (_get_api_keys fs api_keys_file) cred = none
  · rw [if_pos hc]
    constructor
    · constructor
      · intro _
        exact ⟨hc.1, (alookup_eq_none _ _).mp hc.2⟩
      · intro _
        rfl
    · intro hn
      exact (hn ⟨hc.1, (alookup_eq_none _ _).mp hc.2⟩).elim
  · rw [if_neg hc]
    constructor
    · constructor
      · intro h
        exact (Except.noConfusion h)
      · intro h
        exact (hc ⟨h.1, (alookup_eq_none _ _).mpr h.2⟩).elim
    · intro _
      rfl

/-- C4 witness: with an empty configuration the default key is accepted,
and a credential absent from the key file is rejected with 403. -/
theorem verify_api_key_iff_witness :
    verify_api_key (fun _ => FileRead.missing) none ("secret") ("secret") = .ok ()
    ∧ verify_api_key (fun _ => FileRead.missing) none ("secret") ("other")
        = .error ⟨403, ("Invalid API Key")⟩ := by
  constructor
  · exact (verify_api_key_iff (fun _ => FileRead.missing) none ("secret") ("secret")).2
      (by intro h; exact h.1 rfl)
  · exact (verify_api_key_iff (fun _ => FileRead.missing) none ("secret") ("other")).1.mpr
      (by constructor
          · intro h
            exact absurd h (by decide)
          · simp [_get_api_keys])

/-- C5: _get_api_keys returns the mapping parsed from the configured file,
and the empty mapping when no path is configured (None or the empty
string), when the file does not exist, or when its contents are not valid
JSON. -/
theorem get_api_keys_spec (fs : String → FileRead) (p : String)
    (m : List (String × String)) :
    _get_api_keys fs none = []
    ∧ _get_api_keys fs (some ("")) = []
    ∧ (fs p = .missing → _get_api_keys fs (some p) = [])
    ∧ (fs p = .invalidJson → _get_api_keys fs (some p) = [])
    ∧ (p ≠ ("") → fs p = .json m → _get_api_keys fs (some p) = m) := by
  refine ⟨rfl, rfl, ?_, ?_, ?_⟩
  · intro h
    by_cases hp : p = ("") <;> simp [_get_api_keys, hp, h]
  · intro h
    by_cases hp : p = ("") <;> simp [_get_api_keys, hp, h]
  · intro hp h
    simp [_get_api_keys, hp, h]

/-- C5 witness: a missing file yields the empty mapping; a parsed file
yields its mapping. -/
theorem get_api_keys_spec_witness :
    _get_api_keys (fun _ => FileRead.missing) (some ("keys.json")) = []
    ∧ _get_api_keys (fun _ => FileRead.json [(("k1"), ("alice"))]) (some ("keys.json"))
        = [(("k1"), ("alice"))] := by
  constructor
  · exact (get_api_keys_spec (fun _ => FileRead.missing) ("keys.json") []).2.2.1 rfl
  · exact (get_api_keys_spec (fun _ => FileRead.json [(("k1"), ("alice"))]) ("keys.json")
      [(("k1"), ("alice"))]).2.2.2.2 (by decide) rfl

/-- C7: format_transcription is deterministic: two runs on equal transcript
records, equal format names and equal keyword options (with the same
external writers) produce identical results — in particular identical
response content and media types. -/
theorem format_transcription_deterministic
    (wSRT wVTT wAUD : Value → List (String × Value) → String)
    (t1 t2 : Value) (f1 f2 : String) (k1 k2 : List (String × Value))
    (ht : t1 = t2) (hf : f1 = f2) (hk : k1 = k2) :
    format_transcription wSRT wVTT wAUD t1 f1 k1
      = format_transcription wSRT wVTT wAUD t2 f2 k2 := by
  subst ht
  subst hf
  subst hk
  rfl

/-- C7 witness: determinism instantiated at a concrete run. -/
theorem format_transcription_deterministic_witness :
    format_transcription wzero wzero wzero (Value.dict []) ("json") []
      = format_transcription wzero wzero wzero (Value.dict []) ("json") [] :=
  format_transcription_deterministic wzero wzero wzero (Value.dict []) (Value.dict [])
    ("json") ("json") [] [] rfl rfl rfl

theorem pymod_nonneg (a b : Rat) (hb : 0 < b) : 0 ≤ pymod a b := by
  have h1 : ((Int.floor (a / b) : Int) : Rat) ≤ a / b := Int.floor_le _
  have h2 : b * ((Int.floor (a / b) : Int) : Rat) ≤ b * (a / b) :=
    mul_le_mul_of_nonneg_left h1 (le_of_lt hb)
  have h3 : b * (a / b) = a := by
    field_simp
  unfold pymod
  linarith

theorem pymod_lt (a b : Rat) (hb : 0 < b) : pymod a b < b := by
  have h1 : a / b - 1 < ((Int.floor (a / b) : Int) : Rat) := Int.sub_one_lt_floor _
  have h2 : b * (a / b - 1) < b * ((Int.floor (a / b) : Int) : Rat) :=
    mul_lt_mul_of_pos_left h1 hb
  have h3 : b * (a / b) = a := by
    field_simp
  have h4 : b * (a / b - 1) = a - b := by
    rw [mul_sub, h3, mul_one]
  unfold pymod
  linarith

theorem pad2_len_two (n : Int) (h0 : 0 ≤ n) (h1 : n < 100) : (pad2 n).length = 2 := by
  interval_cases n <;> decide

/-- C8: for every nonnegative number of seconds, _format_timestamp returns
MM:SS (two-digit zero-padded minutes and seconds fields) when the input is
below 3600 seconds, and HH:MM:SS (zero-padded hour field) otherwise; in
both forms the minutes and seconds values are below 60. -/
theorem format_timestamp_form (s : Rat) (h : 0 ≤ s) :
    (s < 3600 →
      ∃ m c : Int, 0 ≤ m ∧ m < 60 ∧ 0 ≤ c ∧ c < 60
        ∧ _format_timestamp s = pad2 m ++ (":") ++ pad2 c
        ∧ (pad2 m).length = 2 ∧ (pad2 c).length = 2)
    ∧ (3600 ≤ s →
      ∃ hh m c : Int, 1 ≤ hh ∧ 0 ≤ m ∧ m < 60 ∧ 0 ≤ c ∧ c < 60
        ∧ _format_timestamp s = pad2 hh ++ (":") ++ pad2 m ++ (":") ++ pad2 c
        ∧ (pad2 m).length = 2 ∧ (pad2 c).length = 2) := by
  have hm0 : 0 ≤ Int.floor (pymod s 3600 / 60) :=
    Int.floor_nonneg.mpr (div_nonneg (pymod_nonneg s 3600 (by norm_num)) (by norm_num))
  have hm1 : Int.floor (pymod s 3600 / 60) < 60 := by
    apply Int.floor_lt.mpr
    push_cast
    rw [div_lt_iff₀ (by norm_num : (0:Rat) < 60)]
    calc pymod s 3600 < 3600 := pymod_lt s 3600 (by norm_num)
    _ = 60 * 60 := by norm_num
  have hc0 : 0 ≤ Int.floor (pymod s 60) :=
    Int.floor_nonneg.mpr (pymod_nonneg s 60 (by norm_num))
  have hc1 : Int.floor (pymod s 60) < 60 := by
    apply Int.floor_lt.mpr
    push_cast
    exact pymod_lt s 60 (by norm_num)
  constructor
  · intro hlt
    have hours0 : Int.floor (s / 3600) = 0 := by
      apply Int.floor_eq_zero_iff.mpr
      constructor
      · exact div_nonneg h (by norm_num)
      · rw [div_lt_one (by norm_num : (0:Rat) < 3600)]
        exact hlt
    refine ⟨Int.floor (pymod s 3600 / 60), Int.floor (pymod s 60),
      hm0, hm1, hc0, hc1, ?_, ?_, ?_⟩
    · simp [_format_timestamp, hours0]
    · exact pad2_len_two _ hm0 (by omega)
    · exact pad2_len_two _ hc0 (by omega)
  · intro hge
    have hours1 : 1 ≤ Int.floor (s / 3600) := by
      apply Int.le_floor.mpr
      push_cast
      rw [le_div_iff₀ (by norm_num : (0:Rat) < 3600)]
      linarith
    refine ⟨Int.floor (s / 3600), Int.floor (pymod s 3600 / 60), Int.floor (pymod s 60),
      hours1, hm0, hm1, hc0, hc1, ?_, ?_, ?_⟩
    · have hpos : Int.floor (s / 3600) > 0 := by omega
      simp [_format_timestamp, hpos]
    · exact pad2_len_two _ hm0 (by omega)
    · exact pad2_len_two _ hc0 (by omega)

/-- C8 witness: both branches instantiated, at 65 seconds and at 3725
seconds. -/
theorem format_timestamp_form_witness :
    (∃ m c : Int, 0 ≤ m ∧ m < 60 ∧ 0 ≤ c ∧ c < 60
      ∧ _format_timestamp 65 = pad2 m ++ (":") ++ pad2 c
      ∧ (pad2 m).length = 2 ∧ (pad2 c).length = 2)
    ∧ (∃ hh m c : Int, 1 ≤ hh ∧ 0 ≤ m ∧ m < 60 ∧ 0 ≤ c ∧ c < 60
      ∧ _format_timestamp 3725 = pad2 hh ++ (":") ++ pad2 m ++ (":") ++ pad2 c
      ∧ (pad2 m).length = 2 ∧ (pad2 c).length = 2) := by
  constructor
  · exact (format_timestamp_form 65 (by norm_num)).1 (by norm_num)
  · exact (format_timestamp_form 3725 (by norm_num)).2 (by norm_num)

theorem segOk_speaker (v : Value) (h : segOk v = true) : ∃ sp, segSpeaker v = .ok sp := by
  cases v with
  | null => exact absurd h (by simp [segOk])
  | bool b => exact absurd h (by simp [segOk])
  | num q => exact absurd h (by simp [segOk])
  | str s => exact absurd h (by simp [segOk])
  | list xs => exact absurd h (by simp [segOk])
  | dict kvs => exact ⟨strOfValue (pyGetD kvs ("speaker") (Value.str ("Unknown"))), rfl⟩

theorem segOk_text (v : Value) (h : segOk v = true) : ∃ tx, segText v = .ok tx := by
  cases v with
  | null => exact absurd h (by simp [segOk])
  | bool b => exact absurd h (by simp [segOk])
  | num q => exact absurd h (by simp [segOk])
  | str s => exact absurd h (by simp [segOk])
  | list xs => exact absurd h (by simp [segOk])
  | dict kvs =>
    cases htx : pyGetD kvs ("text") (Value.str ("")) with
    | str s => exact ⟨pyStrip s, by simp [segText, htx]⟩
    | null => exact absurd h (by simp [segOk, htx])
    | bool b => exact absurd h (by simp [segOk, htx])
    | num q => exact absurd h (by simp [segOk, htx])
    | list xs => exact absurd h (by simp [segOk, htx])
    | dict kvs2 => exact absurd h (by simp [segOk, htx])


theorem mdBasicLines_tail_congr (b : Bool) (x : Value) (L L' : List Value)
    (h : mdBasicLines b L = mdBasicLines b L') :
    mdBasicLines b (x :: L) = mdBasicLines b (x :: L') := by
  simp only [mdBasicLines]
  split
  · rfl
  · split
    · rfl
    · split
      · exact h
      · split
        · rfl
        · rw [h]

theorem mdBasicLines_head_congr (b : Bool) (a a' : Value)
    (h1 : segSpeaker a = segSpeaker a') (h2 : segText a = segText a')
    (h3 : segStart a = segStart a') (post : List Value) :
    mdBasicLines b (a :: post) = mdBasicLines b (a' :: post) := by
  simp only [mdBasicLines]
  rw [h1]
  split
  · rfl
  · rw [h2]
    split
    · rfl
    · split
      · rfl
      · rw [h3]

theorem mdBasicLines_skip_head (b : Bool) (a : Value) (sp : String)
    (hsp : segSpeaker a = .ok sp) (ht : segText a = .ok (("")))
    (post : List Value) :
    mdBasicLines b (a :: post) = mdBasicLines b post := by
  simp [mdBasicLines, hsp, ht]

theorem mdBasicLines_filter (b : Bool) (segs : List Value)
    (h : ∀ s ∈ segs, segOk s = true) :
    mdBasicLines b segs = mdBasicLines b (segs.filter (fun s => !segBlank s)) := by
  induction segs with
  | nil => rfl
  | cons a rest ih =>
    have ha : segOk a = true := h a (List.mem_cons_self a rest)
    have hrest : ∀ s ∈ rest, segOk s = true := fun s hs => h s (List.mem_cons_of_mem a hs)
    obtain ⟨sp, hsp⟩ := segOk_speaker a ha
    obtain ⟨tx, htx⟩ := segOk_text a ha
    by_cases hb : tx = ("")
    · subst hb
      have hbl : segBlank a = true := by simp [segBlank, htx]
      rw [List.filter_cons_of_neg (by simp [hbl])]
      exact (mdBasicLines_skip_head b a sp hsp htx rest).trans (ih hrest)
    · have hbl : segBlank a = false := by simp [segBlank, htx, hb]
      rw [List.filter_cons_of_pos (by simp [hbl])]
      exact mdBasicLines_tail_congr b a rest _ (ih hrest)

theorem mdListLines_tail_congr (b : Bool) (x : Value) (L L' : List Value)
    (h : mdListLines b L = mdListLines b L') :
    mdListLines b (x :: L) = mdListLines b (x :: L') := by
  simp only [mdListLines]
  split
  · rfl
  · split
    · rfl
    · split
      · exact h
      · split
        · rfl
        · rw [h]

theorem mdListLines_head_congr (b : Bool) (a a' : Value)
    (h1 : segSpeaker a = segSpeaker a') (h2 : segText a = segText a')
    (h3 : segStart a = segStart a') (post : List Value) :
    mdListLines b (a :: post) = mdListLines b (a' :: post) := by
  simp only [mdListLines]
  rw [h1]
  split
  · rfl
  · rw [h2]
    split
    · rfl
    · split
      · rfl
      · rw [h3]

theorem mdListLines_skip_head (b : Bool) (a : Value) (sp : String)
    (hsp : segSpeaker a = .ok sp) (ht : segText a = .ok (("")))
    (post : List Value) :
    mdListLines b (a :: post) = mdListLines b post := by
  simp [mdListLines, hsp, ht]

theorem mdListLines_filter (b : Bool) (segs : List Value)
    (h : ∀ s ∈ segs, segOk s = true) :
    mdListLines b segs = mdListLines b (segs.filter (fun s => !segBlank s)) := by
  induction segs with
  | nil => rfl
  | cons a rest ih =>
    have ha : segOk a = true := h a (List.mem_cons_self a rest)
    have hrest : ∀ s ∈ rest, segOk s = true := fun s hs => h s (List.mem_cons_of_mem a hs)
    obtain ⟨sp, hsp⟩ := segOk_speaker a ha
    obtain ⟨tx, htx⟩ := segOk_text a ha
    by_cases hb : tx = ("")
    · subst hb
      have hbl : segBlank a = true := by simp [segBlank, htx]
      rw [List.filter_cons_of_neg (by simp [hbl])]
      exact (mdListLines_skip_head b a sp hsp htx rest).trans (ih hrest)
    · have hbl : segBlank a = false := by simp [segBlank, htx, hb]
      rw [List.filter_cons_of_pos (by simp [hbl])]
      exact mdListLines_tail_congr b a rest _ (ih hrest)

theorem mdQuoteLines_tail_congr (b : Bool) (x : Value) (L L' : List Value)
    (h : mdQuoteLines b L = mdQuoteLines b L') :
    mdQuoteLines b (x :: L) = mdQuoteLines b (x :: L') := by
  simp only [mdQuoteLines]
  split
  · rfl
  · split
    · rfl
    · split
      · exact h
      · split
        · rfl
        · rw [h]

theorem mdQuoteLines_head_congr (b : Bool) (a a' : Value)
    (h1 : segSpeaker a = segSpeaker a') (h2 : segText a = segText a')
    (h3 : segStart a = segStart a') (post : List Value) :
    mdQuoteLines b (a :: post) = mdQuoteLines b (a' :: post) := by
  simp only [mdQuoteLines]
  rw [h1]
  split
  · rfl
  · rw [h2]
    split
    · rfl
    · split
      · rfl
      · rw [h3]

theorem mdQuoteLines_skip_head (b : Bool) (a : Value) (sp : String)
    (hsp : segSpeaker a = .ok sp) (ht : segText a = .ok (("")))
    (post : List Value) :
    mdQuoteLines b (a :: post) = mdQuoteLines b post := by
  simp [mdQuoteLines, hsp, ht]

theorem mdQuoteLines_filter (b : Bool) (segs : List Value)
    (h : ∀ s ∈ segs, segOk s = true) :
    mdQuoteLines b segs = mdQuoteLines b (segs.filter (fun s => !segBlank s)) := by
  induction segs with
  | nil => rfl
  | cons a rest ih =>
    have ha : segOk a = true := h a (List.mem_cons_self a rest)
    have hrest : ∀ s ∈ rest, segOk s = true := fun s hs => h s (List.mem_cons_of_mem a hs)
    obtain ⟨sp, hsp⟩ := segOk_speaker a ha
    obtain ⟨tx, htx⟩ := segOk_text a ha
    by_cases hb : tx = ("")
    · subst hb
      have hbl : segBlank a = true := by simp [segBlank, htx]
      rw [List.filter_cons_of_neg (by simp [hbl])]
      exact (mdQuoteLines_skip_head b a sp hsp htx rest).trans (ih hrest)
    · have hbl : segBlank a = false := by simp [segBlank, htx, hb]
      rw [List.filter_cons_of_pos (by simp [hbl])]
      exact mdQuoteLines_tail_congr b a rest _ (ih hrest)

theorem tableSpeakerSeq_tail_congr (x : Value) (L L' : List Value)
    (h : tableSpeakerSeq L = tableSpeakerSeq L') :
    tableSpeakerSeq (x :: L) = tableSpeakerSeq (x :: L') := by
  simp only [tableSpeakerSeq]
  split
  · rfl
  · split
    · exact h
    · split
      · rfl
      · rw [h]

theorem tableSpeakerSeq_head_congr (a a' : Value)
    (h1 : segSpeaker a = segSpeaker a') (h2 : segText a = segText a')
    (post : List Value) :
    tableSpeakerSeq (a :: post) = tableSpeakerSeq (a' :: post) := by
  simp only [tableSpeakerSeq]
  rw [h2]
  split
  · rfl
  · split
    · rfl
    · rw [h1]

theorem tableSpeakerSeq_skip_head (a : Value)
    (ht : segText a = .ok ((""))) (post : List Value) :
    tableSpeakerSeq (a :: post) = tableSpeakerSeq post := by
  simp [tableSpeakerSeq, ht]

theorem tableSpeakerSeq_filter (segs : List Value)
    (h : ∀ s ∈ segs, segOk s = true) :
    tableSpeakerSeq segs = tableSpeakerSeq (segs.filter (fun s => !segBlank s)) := by
  induction segs with
  | nil => rfl
  | cons a rest ih =>
    have ha : segOk a = true := h a (List.mem_cons_self a rest)
    have hrest : ∀ s ∈ rest, segOk s = true := fun s hs => h s (List.mem_cons_of_mem a hs)
    obtain ⟨tx, htx⟩ := segOk_text a ha
    by_cases hb : tx = ("")
    · subst hb
      have hbl : segBlank a = true := by simp [segBlank, htx]
      rw [List.filter_cons_of_neg (by simp [hbl])]
      exact (tableSpeakerSeq_skip_head a htx rest).trans (ih hrest)
    · have hbl : segBlank a = false := by simp [segBlank, htx, hb]
      rw [List.filter_cons_of_pos (by simp [hbl])]
      exact tableSpeakerSeq_tail_congr a rest _ (ih hrest)

theorem twoSpeakerLines_tail_congr (s0 : String) (b : Bool) (x : Value)
    (L L' : List Value)
    (h : twoSpeakerLines s0 b L = twoSpeakerLines s0 b L') :
    twoSpeakerLines s0 b (x :: L) = twoSpeakerLines s0 b (x :: L') := by
  simp only [twoSpeakerLines]
  split
  · rfl
  · split
    · rfl
    · split
      · exact h
      · split
        · rfl
        · rw [h]

theorem twoSpeakerLines_head_congr (s0 : String) (b : Bool) (a a' : Value)
    (h1 : segSpeaker a = segSpeaker a') (h2 : segText a = segText a')
    (h3 : segStart a = segStart a') (post : List Value) :
    twoSpeakerLines s0 b (a :: post) = twoSpeakerLines s0 b (a' :: post) := by
  simp only [twoSpeakerLines]
  rw [h1]
  split
  · rfl
  · rw [h2]
    split
    · rfl
    · split
      · rfl
      · rw [h3]

theorem twoSpeakerLines_skip_head (s0 : String) (b : Bool) (a : Value) (sp : String)
    (hsp : segSpeaker a = .ok sp) (ht : segText a = .ok (("")))
    (post : List Value) :
    twoSpeakerLines s0 b (a :: post) = twoSpeakerLines s0 b post := by
  simp [twoSpeakerLines, hsp, ht]

theorem twoSpeakerLines_filter (s0 : String) (b : Bool) (segs : List Value)
    (h : ∀ s ∈ segs, segOk s = true) :
    twoSpeakerLines s0 b segs
      = twoSpeakerLines s0 b (segs.filter (fun s => !segBlank s)) := by
  induction segs with
  | nil => rfl
  | cons a rest ih =>
    have ha : segOk a = true := h a (List.mem_cons_self a rest)
    have hrest : ∀ s ∈ rest, segOk s = true := fun s hs => h s (List.mem_cons_of_mem a hs)
    obtain ⟨sp, hsp⟩ := segOk_speaker a ha
    obtain ⟨tx, htx⟩ := segOk_text a ha
    by_cases hb : tx = ("")
    · subst hb
      have hbl : segBlank a = true := by simp [segBlank, htx]
      rw [List.filter_cons_of_neg (by simp [hbl])]
      exact (twoSpeakerLines_skip_head s0 b a sp hsp htx rest).trans (ih hrest)
    · have hbl : segBlank a = false := by simp [segBlank, htx, hb]
      rw [List.filter_cons_of_pos (by simp [hbl])]
      exact twoSpeakerLines_tail_congr s0 b a rest _ (ih hrest)

theorem multiSpeakerLines_tail_congr (b : Bool) (x : Value) (L L' : List Value)
    (h : multiSpeakerLines b L = multiSpeakerLines b L') :
    multiSpeakerLines b (x :: L) = multiSpeakerLines b (x :: L') := by
  simp only [multiSpeakerLines]
  split
  · rfl
  · split
    · rfl
    · split
      · exact h
      · split
        · rfl
        · rw [h]

theorem multiSpeakerLines_head_congr (b : Bool) (a a' : Value)
    (h1 : segSpeaker a = segSpeaker a') (h2 : segText a = segText a')
    (h3 : segStart a = segStart a') (post : List Value) :
    multiSpeakerLines b (a :: post) = multiSpeakerLines b (a' :: post) := by
  simp only [multiSpeakerLines]
  rw [h1]
  split
  · rfl
  · rw [h2]
    split
    · rfl
    · split
      · rfl
      · rw [h3]

theorem multiSpeakerLines_skip_head (b : Bool) (a : Value) (sp : String)
    (hsp : segSpeaker a = .ok sp) (ht : segText a = .ok (("")))
    (post : List Value) :
    multiSpeakerLines b (a :: post) = multiSpeakerLines b post := by
  simp [multiSpeakerLines, hsp, ht]

theorem multiSpeakerLines_filter (b : Bool) (segs : List Value)
    (h : ∀ s ∈ segs, segOk s = true) :
    multiSpeakerLines b segs
      = multiSpeakerLines b (segs.filter (fun s => !segBlank s)) := by
  induction segs with
  | nil => rfl
  | cons a rest ih =>
    have ha : segOk a = true := h a (List.mem_cons_self a rest)
    have hrest : ∀ s ∈ rest, segOk s = true := fun s hs => h s (List.mem_cons_of_mem a hs)
    obtain ⟨sp, hsp⟩ := segOk_speaker a ha
    obtain ⟨tx, htx⟩ := segOk_text a ha
    by_cases hb : tx = ("")
    · subst hb
      have hbl : segBlank a = true := by simp [segBlank, htx]
      rw [List.filter_cons_of_neg (by simp [hbl])]
      exact (multiSpeakerLines_skip_head b a sp hsp htx rest).trans (ih hrest)
    · have hbl : segBlank a = false := by simp [segBlank, htx, hb]
      rw [List.filter_cons_of_pos (by simp [hbl])]
      exact multiSpeakerLines_tail_congr b a rest _ (ih hrest)

theorem get_segments_mkT (segs : List Value) : _get_segments (mkT segs) = .ok segs := by
  simp [mkT, _get_segments, pyGetD, alookup]

theorem mdBasicLines_congr (b : Bool) (a a' : Value)
    (h1 : segSpeaker a = segSpeaker a') (h2 : segText a = segText a')
    (h3 : segStart a = segStart a') (pre post : List Value) :
    mdBasicLines b (pre ++ a :: post) = mdBasicLines b (pre ++ a' :: post) := by
  induction pre with
  | nil => exact mdBasicLines_head_congr b a a' h1 h2 h3 post
  | cons x xs ih => exact mdBasicLines_tail_congr b x _ _ ih

theorem mdBasicLines_skip (b : Bool) (a : Value) (sp : String)
    (hsp : segSpeaker a = .ok sp) (ht : segText a = .ok (("")))
    (pre post : List Value) :
    mdBasicLines b (pre ++ a :: post) = mdBasicLines b (pre ++ post) := by
  induction pre with
  | nil => exact mdBasicLines_skip_head b a sp hsp ht post
  | cons x xs ih => exact mdBasicLines_tail_congr b x _ _ ih

theorem mdListLines_congr (b : Bool) (a a' : Value)
    (h1 : segSpeaker a = segSpeaker a') (h2 : segText a = segText a')
    (h3 : segStart a = segStart a') (pre post : List Value) :
    mdListLines b (pre ++ a :: post) = mdListLines b (pre ++ a' :: post) := by
  induction pre with
  | nil => exact mdListLines_head_congr b a a' h1 h2 h3 post
  | cons x xs ih => exact mdListLines_tail_congr b x _ _ ih

theorem mdListLines_skip (b : Bool) (a : Value) (sp : String)
    (hsp : segSpeaker a = .ok sp) (ht : segText a = .ok (("")))
    (pre post : List Value) :
    mdListLines b (pre ++ a :: post) = mdListLines b (pre ++ post) := by
  induction pre with
  | nil => exact mdListLines_skip_head b a sp hsp ht post
  | cons x xs ih => exact mdListLines_tail_congr b x _ _ ih

theorem mdQuoteLines_congr (b : Bool) (a a' : Value)
    (h1 : segSpeaker a = segSpeaker a') (h2 : segText a = segText a')
    (h3 : segStart a = segStart a') (pre post : List Value) :
    mdQuoteLines b (pre ++ a :: post) = mdQuoteLines b (pre ++ a' :: post) := by
  induction pre with
  | nil => exact mdQuoteLines_head_congr b a a' h1 h2 h3 post
  | cons x xs ih => exact mdQuoteLines_tail_congr b x _ _ ih

theorem mdQuoteLines_skip (b : Bool) (a : Value) (sp : String)
    (hsp : segSpeaker a = .ok sp) (ht : segText a = .ok (("")))
    (pre post : List Value) :
    mdQuoteLines b (pre ++ a :: post) = mdQuoteLines b (pre ++ post) := by
  induction pre with
  | nil => exact mdQuoteLines_skip_head b a sp hsp ht post
  | cons x xs ih => exact mdQuoteLines_tail_congr b x _ _ ih

theorem tableSpeakerSeq_congr2 (a a' : Value)
    (h1 : segSpeaker a = segSpeaker a') (h2 : segText a = segText a')
    (pre post : List Value) :
    tableSpeakerSeq (pre ++ a :: post) = tableSpeakerSeq (pre ++ a' :: post) := by
  induction pre with
  | nil => exact tableSpeakerSeq_head_congr a a' h1 h2 post
  | cons x xs ih => exact tableSpeakerSeq_tail_congr x _ _ ih

theorem tableSpeakerSeq_skip (a : Value)
    (ht : segText a = .ok ((""))) (pre post : List Value) :
    tableSpeakerSeq (pre ++ a :: post) = tableSpeakerSeq (pre ++ post) := by
  induction pre with
  | nil => exact tableSpeakerSeq_skip_head a ht post
  | cons x xs ih => exact tableSpeakerSeq_tail_congr x _ _ ih

theorem twoSpeakerLines_congr2 (s0 : String) (b : Bool) (a a' : Value)
    (h1 : segSpeaker a = segSpeaker a') (h2 : segText a = segText a')
    (h3 : segStart a = segStart a') (pre post : List Value) :
    twoSpeakerLines s0 b (pre ++ a :: post) = twoSpeakerLines s0 b (pre ++ a' :: post) := by
  induction pre with
  | nil => exact twoSpeakerLines_head_congr s0 b a a' h1 h2 h3 post
  | cons x xs ih => exact twoSpeakerLines_tail_congr s0 b x _ _ ih

theorem twoSpeakerLines_skip (s0 : String) (b : Bool) (a : Value) (sp : String)
    (hsp : segSpeaker a = .ok sp) (ht : segText a = .ok (("")))
    (pre post : List Value) :
    twoSpeakerLines s0 b (pre ++ a :: post) = twoSpeakerLines s0 b (pre ++ post) := by
  induction pre with
  | nil => exact twoSpeakerLines_skip_head s0 b a sp hsp ht post
  | cons x xs ih => exact twoSpeakerLines_tail_congr s0 b x _ _ ih

theorem multiSpeakerLines_congr2 (b : Bool) (a a' : Value)
    (h1 : segSpeaker a = segSpeaker a') (h2 : segText a = segText a')
    (h3 : segStart a = segStart a') (pre post : List Value) :
    multiSpeakerLines b (pre ++ a :: post) = multiSpeakerLines b (pre ++ a' :: post) := by
  induction pre with
  | nil => exact multiSpeakerLines_head_congr b a a' h1 h2 h3 post
  | cons x xs ih => exact multiSpeakerLines_tail_congr b x _ _ ih

theorem multiSpeakerLines_skip (b : Bool) (a : Value) (sp : String)
    (hsp : segSpeaker a = .ok sp) (ht : segText a = .ok (("")))
    (pre post : List Value) :
    multiSpeakerLines b (pre ++ a :: post) = multiSpeakerLines b (pre ++ post) := by
  induction pre with
  | nil => exact multiSpeakerLines_skip_head b a sp hsp ht post
  | cons x xs ih => exact multiSpeakerLines_tail_congr b x _ _ ih

theorem format_md_basic_congr (b : Bool) (a a' : Value)
    (h1 : segSpeaker a = segSpeaker a') (h2 : segText a = segText a')
    (h3 : segStart a = segStart a') (pre post : List Value) :
    format_md_basic (mkT (pre ++ a :: post)) b
      = format_md_basic (mkT (pre ++ a' :: post)) b := by
  simp only [format_md_basic, get_segments_mkT]
  rw [mdBasicLines_congr b a a' h1 h2 h3 pre post]

theorem format_md_basic_skip (b : Bool) (a : Value) (sp : String)
    (hsp : segSpeaker a = .ok sp) (ht : segText a = .ok (("")))
    (pre post : List Value) :
    format_md_basic (mkT (pre ++ a :: post)) b = format_md_basic (mkT (pre ++ post)) b := by
  simp only [format_md_basic, get_segments_mkT]
  rw [mdBasicLines_skip b a sp hsp ht pre post]

theorem format_md_basic_filter (b : Bool) (segs : List Value)
    (h : ∀ s ∈ segs, segOk s = true) :
    format_md_basic (mkT segs) b
      = format_md_basic (mkT (segs.filter (fun s => !segBlank s))) b := by
  simp only [format_md_basic, get_segments_mkT]
  rw [mdBasicLines_filter b segs h]

theorem format_md_list_congr (b : Bool) (a a' : Value)
    (h1 : segSpeaker a = segSpeaker a') (h2 : segText a = segText a')
    (h3 : segStart a = segStart a') (pre post : List Value) :
    format_md_list (mkT (pre ++ a :: post)) b
      = format_md_list (mkT (pre ++ a' :: post)) b := by
  simp only [format_md_list, get_segments_mkT]
  rw [mdListLines_congr b a a' h1 h2 h3 pre post]

theorem format_md_list_skip (b : Bool) (a : Value) (sp : String)
    (hsp : segSpeaker a = .ok sp) (ht : segText a = .ok (("")))
    (pre post : List Value) :
    format_md_list (mkT (pre ++ a :: post)) b = format_md_list (mkT (pre ++ post)) b := by
  simp only [format_md_list, get_segments_mkT]
  rw [mdListLines_skip b a sp hsp ht pre post]

theorem format_md_list_filter (b : Bool) (segs : List Value)
    (h : ∀ s ∈ segs, segOk s = true) :
    format_md_list (mkT segs) b
      = format_md_list (mkT (segs.filter (fun s => !segBlank s))) b := by
  simp only [format_md_list, get_segments_mkT]
  rw [mdListLines_filter b segs h]

theorem format_md_quote_congr (b : Bool) (a a' : Value)
    (h1 : segSpeaker a = segSpeaker a') (h2 : segText a = segText a')
    (h3 : segStart a = segStart a') (pre post : List Value) :
    format_md_quote (mkT (pre ++ a :: post)) b
      = format_md_quote (mkT (pre ++ a' :: post)) b := by
  simp only [format_md_quote, get_segments_mkT]
  rw [mdQuoteLines_congr b a a' h1 h2 h3 pre post]

theorem format_md_quote_skip (b : Bool) (a : Value) (sp : String)
    (hsp : segSpeaker a = .ok sp) (ht : segText a = .ok (("")))
    (pre post : List Value) :
    format_md_quote (mkT (pre ++ a :: post)) b = format_md_quote (mkT (pre ++ post)) b := by
  simp only [format_md_quote, get_segments_mkT]
  rw [mdQuoteLines_skip b a sp hsp ht pre post]

theorem format_md_quote_filter (b : Bool) (segs : List Value)
    (h : ∀ s ∈ segs, segOk s = true) :
    format_md_quote (mkT segs) b
      = format_md_quote (mkT (segs.filter (fun s => !segBlank s))) b := by
  simp only [format_md_quote, get_segments_mkT]
  rw [mdQuoteLines_filter b segs h]

theorem two_table_congr (s0 s1 : String) (b : Bool) (a a' : Value)
    (h1 : segSpeaker a = segSpeaker a') (h2 : segText a = segText a')
    (h3 : segStart a = segStart a') (pre post : List Value) :
    _format_two_speaker_table (pre ++ a :: post) s0 s1 b
      = _format_two_speaker_table (pre ++ a' :: post) s0 s1 b := by
  unfold _format_two_speaker_table
  rw [twoSpeakerLines_congr2 s0 b a a' h1 h2 h3 pre post]

theorem two_table_skip (s0 s1 : String) (b : Bool) (a : Value) (sp : String)
    (hsp : segSpeaker a = .ok sp) (ht : segText a = .ok (("")))
    (pre post : List Value) :
    _format_two_speaker_table (pre ++ a :: post) s0 s1 b
      = _format_two_speaker_table (pre ++ post) s0 s1 b := by
  unfold _format_two_speaker_table
  rw [twoSpeakerLines_skip s0 b a sp hsp ht pre post]

theorem two_table_filter (s0 s1 : String) (b : Bool) (segs : List Value)
    (h : ∀ s ∈ segs, segOk s = true) :
    _format_two_speaker_table segs s0 s1 b
      = _format_two_speaker_table (segs.filter (fun s => !segBlank s)) s0 s1 b := by
  unfold _format_two_speaker_table
  rw [twoSpeakerLines_filter s0 b segs h]

theorem multi_table_congr (b : Bool) (a a' : Value)
    (h1 : segSpeaker a = segSpeaker a') (h2 : segText a = segText a')
    (h3 : segStart a = segStart a') (pre post : List Value) :
    _format_multi_speaker_table (pre ++ a :: post) b
      = _format_multi_speaker_table (pre ++ a' :: post) b := by
  unfold _format_multi_speaker_table
  rw [multiSpeakerLines_congr2 b a a' h1 h2 h3 pre post]

theorem multi_table_skip (b : Bool) (a : Value) (sp : String)
    (hsp : segSpeaker a = .ok sp) (ht : segText a = .ok (("")))
    (pre post : List Value) :
    _format_multi_speaker_table (pre ++ a :: post) b
      = _format_multi_speaker_table (pre ++ post) b := by
  unfold _format_multi_speaker_table
  rw [multiSpeakerLines_skip b a sp hsp ht pre post]

theorem multi_table_filter (b : Bool) (segs : List Value)
    (h : ∀ s ∈ segs, segOk s = true) :
    _format_multi_speaker_table segs b
      = _format_multi_speaker_table (segs.filter (fun s => !segBlank s)) b := by
  unfold _format_multi_speaker_table
  rw [multiSpeakerLines_filter b segs h]

theorem format_md_table_congr (b : Bool) (a a' : Value)
    (h1 : segSpeaker a = segSpeaker a') (h2 : segText a = segText a')
    (h3 : segStart a = segStart a') (pre post : List Value) :
    format_md_table (mkT (pre ++ a :: post)) b
      = format_md_table (mkT (pre ++ a' :: post)) b := by
  simp only [format_md_table, get_segments_mkT]
  rw [tableSpeakerSeq_congr2 a a' h1 h2 pre post]
  split
  · rfl
  · split
    · exact two_table_congr _ _ b a a' h1 h2 h3 pre post
    · exact multi_table_congr b a a' h1 h2 h3 pre post

theorem format_md_table_skip (b : Bool) (a : Value) (sp : String)
    (hsp : segSpeaker a = .ok sp) (ht : segText a = .ok (("")))
    (pre post : List Value) :
    format_md_table (mkT (pre ++ a :: post)) b = format_md_table (mkT (pre ++ post)) b := by
  simp only [format_md_table, get_segments_mkT]
  rw [tableSpeakerSeq_skip a ht pre post]
  split
  · rfl
  · split
    · exact two_table_skip _ _ b a sp hsp ht pre post
    · exact multi_table_skip b a sp hsp ht pre post

theorem format_md_table_filter (b : Bool) (segs : List Value)
    (h : ∀ s ∈ segs, segOk s = true) :
    format_md_table (mkT segs) b
      = format_md_table (mkT (segs.filter (fun s => !segBlank s))) b := by
  simp only [format_md_table, get_segments_mkT]
  rw [tableSpeakerSeq_filter segs h]
  split
  · rfl
  · split
    · exact two_table_filter _ _ b segs h
    · exact multi_table_filter b segs h

theorem segSpeaker_default (kvs : List (String × Value))
    (h : alookup kvs ("speaker") = none) :
    segSpeaker (Value.dict kvs) = .ok (("Unknown")) := by
  simp [segSpeaker, pyGetD, h, strOfValue]

theorem segSpeaker_setKey_unknown (kvs : List (String × Value)) :
    segSpeaker (Value.dict (setKey kvs ("speaker") (Value.str ("Unknown"))))
      = .ok (("Unknown")) := by
  simp [segSpeaker, pyGetD, alookup_setKey_self, strOfValue]

theorem segSpeaker_setKey_other (kvs : List (String × Value)) (k : String) (v : Value)
    (hne : k ≠ ("speaker")) :
    segSpeaker (Value.dict (setKey kvs k v)) = segSpeaker (Value.dict kvs) := by
  simp [segSpeaker, pyGetD, alookup_setKey_ne kvs k ("speaker") v hne]

theorem segText_setKey_other (kvs : List (String × Value)) (k : String) (v : Value)
    (hne : k ≠ ("text")) :
    segText (Value.dict (setKey kvs k v)) = segText (Value.dict kvs) := by
  simp [segText, pyGetD, alookup_setKey_ne kvs k ("text") v hne]

theorem segStart_setKey_other (kvs : List (String × Value)) (k : String) (v : Value)
    (hne : k ≠ ("start")) :
    segStart (Value.dict (setKey kvs k v)) = segStart (Value.dict kvs) := by
  simp [segStart, pyGetD, alookup_setKey_ne kvs k ("start") v hne]

theorem segText_default (kvs : List (String × Value))
    (h : alookup kvs ("text") = none) :
    segText (Value.dict kvs) = .ok (("")) := by
  simp [segText, pyGetD, h]
  decide

theorem segStart_default (kvs : List (String × Value))
    (h : alookup kvs ("start") = none) :
    segStart (Value.dict kvs) = .ok 0 := by
  simp [segStart, pyGetD, h]

theorem segStart_setKey_zero (kvs : List (String × Value)) :
    segStart (Value.dict (setKey kvs ("start") (Value.num 0))) = .ok 0 := by
  simp [segStart, pyGetD, alookup_setKey_self]

/-- C6: in every markdown formatter, missing segment fields are replaced by
defaults: a segment without a "speaker" key renders exactly as the same
segment with speaker "Unknown"; a segment without a "text" key is treated
as blank and skipped (removing it leaves the output unchanged); and when
timestamps are requested a segment without a "start" key renders exactly
as the same segment with start 0. -/
theorem md_default_substitution (pre post : List Value) (b : Bool)
    (k1 k2 k3 : List (String × Value))
    (h1 : alookup k1 ("speaker") = none)
    (h2 : alookup k2 ("text") = none)
    (h3 : alookup k3 ("start") = none) :
    ∀ F ∈ mdFormatters,
      (F (mkT (pre ++ Value.dict k1 :: post)) b
        = F (mkT (pre ++ Value.dict (setKey k1 ("speaker") (Value.str ("Unknown"))) :: post)) b)
      ∧ (F (mkT (pre ++ Value.dict k2 :: post)) b = F (mkT (pre ++ post)) b)
      ∧ (F (mkT (pre ++ Value.dict k3 :: post)) true
        = F (mkT (pre ++ Value.dict (setKey k3 ("start") (Value.num 0)) :: post)) true) := by
  have e1a : segSpeaker (Value.dict k1)
      = segSpeaker (Value.dict (setKey k1 ("speaker") (Value.str ("Unknown")))) := by
    rw [segSpeaker_default k1 h1, segSpeaker_setKey_unknown k1]
  have e1b : segText (Value.dict k1)
      = segText (Value.dict (setKey k1 ("speaker") (Value.str ("Unknown")))) :=
    (segText_setKey_other k1 ("speaker") (Value.str ("Unknown")) (by decide)).symm
  have e1c : segStart (Value.dict k1)
      = segStart (Value.dict (setKey k1 ("speaker") (Value.str ("Unknown")))) :=
    (segStart_setKey_other k1 ("speaker") (Value.str ("Unknown")) (by decide)).symm
  have e2t : segText (Value.dict k2) = .ok (("")) := segText_default k2 h2
  have e3a : segSpeaker (Value.dict k3)
      = segSpeaker (Value.dict (setKey k3 ("start") (Value.num 0))) :=
    (segSpeaker_setKey_other k3 ("start") (Value.num 0) (by decide)).symm
  have e3b : segText (Value.dict k3)
      = segText (Value.dict (setKey k3 ("start") (Value.num 0))) :=
    (segText_setKey_other k3 ("start") (Value.num 0) (by decide)).symm
  have e3c : segStart (Value.dict k3)
      = segStart (Value.dict (setKey k3 ("start") (Value.num 0))) := by
    rw [segStart_default k3 h3, segStart_setKey_zero k3]
  intro F hF
  simp only [mdFormatters, List.mem_cons, List.not_mem_nil, or_false] at hF
  rcases hF with rfl | rfl | rfl | rfl
  · exact ⟨format_md_basic_congr b _ _ e1a e1b e1c pre post,
      format_md_basic_skip b (Value.dict k2) _ rfl e2t pre post,
      format_md_basic_congr true _ _ e3a e3b e3c pre post⟩
  · exact ⟨format_md_list_congr b _ _ e1a e1b e1c pre post,
      format_md_list_skip b (Value.dict k2) _ rfl e2t pre post,
      format_md_list_congr true _ _ e3a e3b e3c pre post⟩
  · exact ⟨format_md_quote_congr b _ _ e1a e1b e1c pre post,
      format_md_quote_skip b (Value.dict k2) _ rfl e2t pre post,
      format_md_quote_congr true _ _ e3a e3b e3c pre post⟩
  · exact ⟨format_md_table_congr b _ _ e1a e1b e1c pre post,
      format_md_table_skip b (Value.dict k2) _ rfl e2t pre post,
      format_md_table_congr true _ _ e3a e3b e3c pre post⟩

/-- C6 witness: the substitutions instantiated for format_md_basic on
concrete one-segment lists. -/
theorem md_default_substitution_witness :
    (format_md_basic (mkT ([] ++ Value.dict [(("text"), Value.str ("hi"))] :: [])) false
      = format_md_basic (mkT ([] ++ Value.dict
          (setKey [(("text"), Value.str ("hi"))] ("speaker") (Value.str ("Unknown"))) :: [])) false)
    ∧ (format_md_basic (mkT ([] ++ Value.dict [(("speaker"), Value.str ("A"))] :: [])) false
      = format_md_basic (mkT ([] ++ [])) false)
    ∧ (format_md_basic (mkT ([] ++ Value.dict [(("text"), Value.str ("hi"))] :: [])) true
      = format_md_basic (mkT ([] ++ Value.dict
          (setKey [(("text"), Value.str ("hi"))] ("start") (Value.num 0)) :: [])) true) :=
  md_default_substitution [] [] false
    [(("text"), Value.str ("hi"))] [(("speaker"), Value.str ("A"))] [(("text"), Value.str ("hi"))]
    rfl rfl rfl format_md_basic (List.mem_cons_self _ _)

/-- C9: blank segments are invisible to the markdown formatters: on
well-shaped segment records, each formatter's output on a segment list
equals its output on the sublist of segments whose text is non-empty after
stripping, and in format_md_table blank segments contribute no speaker to
the speaker-column detection. -/
theorem md_blank_invisible (segs : List Value) (b : Bool)
    (h : ∀ s ∈ segs, segOk s = true) :
    format_md_basic (mkT segs) b
      = format_md_basic (mkT (segs.filter (fun s => !segBlank s))) b
    ∧ format_md_list (mkT segs) b
      = format_md_list (mkT (segs.filter (fun s => !segBlank s))) b
    ∧ format_md_quote (mkT segs) b
      = format_md_quote (mkT (segs.filter (fun s => !segBlank s))) b
    ∧ format_md_table (mkT segs) b
      = format_md_table (mkT (segs.filter (fun s => !segBlank s))) b
    ∧ tableSpeakerSeq segs = tableSpeakerSeq (segs.filter (fun s => !segBlank s)) :=
  ⟨format_md_basic_filter b segs h, format_md_list_filter b segs h,
    format_md_quote_filter b segs h, format_md_table_filter b segs h,
    tableSpeakerSeq_filter segs h⟩

/-- C9 witness: instantiated on a concrete list with one blank and one
non-blank segment. -/
theorem md_blank_invisible_witness :
    (format_md_basic (mkT [Value.dict [(("text"), Value.str ("hi"))],
        Value.dict [(("text"), Value.str ("  "))]]) true
      = format_md_basic (mkT ([Value.dict [(("text"), Value.str ("hi"))],
          Value.dict [(("text"), Value.str ("  "))]].filter (fun s => !segBlank s))) true)
    ∧ (format_md_list (mkT [Value.dict [(("text"), Value.str ("hi"))],
        Value.dict [(("text"), Value.str ("  "))]]) true
      = format_md_list (mkT ([Value.dict [(("text"), Value.str ("hi"))],
          Value.dict [(("text"), Value.str ("  "))]].filter (fun s => !segBlank s))) true)
    ∧ (format_md_quote (mkT [Value.dict [(("text"), Value.str ("hi"))],
        Value.dict [(("text"), Value.str ("  "))]]) true
      = format_md_quote (mkT ([Value.dict [(("text"), Value.str ("hi"))],
          Value.dict [(("text"), Value.str ("  "))]].filter (fun s => !segBlank s))) true)
    ∧ (format_md_table (mkT [Value.dict [(("text"), Value.str ("hi"))],
        Value.dict [(("text"), Value.str ("  "))]]) true
      = format_md_table (mkT ([Value.dict [(("text"), Value.str ("hi"))],
          Value.dict [(("text"), Value.str ("  "))]].filter (fun s => !segBlank s))) true)
    ∧ tableSpeakerSeq [Value.dict [(("text"), Value.str ("hi"))],
        Value.dict [(("text"), Value.str ("  "))]]
      = tableSpeakerSeq ([Value.dict [(("text"), Value.str ("hi"))],
          Value.dict [(("text"), Value.str ("  "))]].filter (fun s => !segBlank s)) :=
  md_blank_invisible
    [Value.dict [(("text"), Value.str ("hi"))], Value.dict [(("text"), Value.str ("  "))]]
    true (by decide)

theorem segSpeaker_no_ve (s : Value) (m : String) :
    segSpeaker s ≠ .error (.valueError m) := by
  cases s <;> simp [segSpeaker]

theorem segText_no_ve (s : Value) (m : String) :
    segText s ≠ .error (.valueError m) := by
  cases s <;> simp [segText]
  next kvs => cases pyGetD kvs ("text") (Value.str ("")) <;> simp

theorem segStart_no_ve (s : Value) (m : String) :
    segStart s ≠ .error (.valueError m) := by
  cases s <;> simp [segStart]
  next kvs => cases pyGetD kvs ("start") (Value.num 0) <;> simp

theorem get_segments_no_ve (t : Value) (m : String) :
    _get_segments t ≠ .error (.valueError m) := by
  cases t <;> simp [_get_segments]
  next kvs =>
    cases pyGetD kvs ("segments") (Value.dict []) <;> simp
    · next s => split <;> simp
    · next skvs =>
      cases pyGetD skvs ("segments") (Value.list []) <;> simp
      next s => split <;> simp

theorem mdBasicLines_no_ve (b : Bool) (segs : List Value) (m : String) :
    mdBasicLines b segs ≠ .error (.valueError m) := by
  induction segs with
  | nil => simp [mdBasicLines]
  | cons a rest ih =>
    simp only [mdBasicLines]
    split
    · next e heq =>
      intro h
      injection h with h2
      exact segSpeaker_no_ve a m (h2 ▸ heq)
    · split
      · next e heq =>
        intro h
        injection h with h2
        exact segText_no_ve a m (h2 ▸ heq)
      · split
        · exact ih
        · split
          · next e heq =>
            intro h
            injection h with h2
            subst h2
            by_cases hb : b
            · rw [if_pos hb] at heq
              cases hst : segStart a with
              | ok q =>
                rw [hst] at heq
                simp [Except.map] at heq
              | error e2 =>
                rw [hst] at heq
                simp [Except.map] at heq
                exact segStart_no_ve a m (by rw [hst, heq])
            · rw [if_neg hb] at heq
              simp at heq
          · next line hline =>
            split
            · next e heq =>
              intro h
              injection h with h2
              exact ih (h2 ▸ heq)
            · simp

theorem mdListLines_no_ve (b : Bool) (segs : List Value) (m : String) :
    mdListLines b segs ≠ .error (.valueError m) := by
  induction segs with
  | nil => simp [mdListLines]
  | cons a rest ih =>
    simp only [mdListLines]
    split
    · next e heq =>
      intro h
      injection h with h2
      exact segSpeaker_no_ve a m (h2 ▸ heq)
    · split
      · next e heq =>
        intro h
        injection h with h2
        exact segText_no_ve a m (h2 ▸ heq)
      · split
        · exact ih
        · split
          · next e heq =>
            intro h
            injection h with h2
            subst h2
            by_cases hb : b
            · rw [if_pos hb] at heq
              cases hst : segStart a with
              | ok q =>
                rw [hst] at heq
                simp [Except.map] at heq
              | error e2 =>
                rw [hst] at heq
                simp [Except.map] at heq
                exact segStart_no_ve a m (by rw [hst, heq])
            · rw [if_neg hb] at heq
              simp at heq
          · next line hline =>
            split
            · next e heq =>
              intro h
              injection h with h2
              exact ih (h2 ▸ heq)
            · simp

theorem mdQuoteLines_no_ve (b : Bool) (segs : List Value) (m : String) :
    mdQuoteLines b segs ≠ .error (.valueError m) := by
  induction segs with
  | nil => simp [mdQuoteLines]
  | cons a rest ih =>
    simp only [mdQuoteLines]
    split
    · next e heq =>
      intro h
      injection h with h2
      exact segSpeaker_no_ve a m (h2 ▸ heq)
    · split
      · next e heq =>
        intro h
        injection h with h2
        exact segText_no_ve a m (h2 ▸ heq)
      · split
        · exact ih
        · split
          · next e heq =>
            intro h
            injection h with h2
            subst h2
            by_cases hb : b
            · rw [if_pos hb] at heq
              cases hst : segStart a with
              | ok q =>
                rw [hst] at heq
                simp [Except.map] at heq
              | error e2 =>
                rw [hst] at heq
                simp [Except.map] at heq
                exact segStart_no_ve a m (by rw [hst, heq])
            · rw [if_neg hb] at heq
              simp at heq
          · next line hline =>
            split
            · next e heq =>
              intro h
              injection h with h2
              exact ih (h2 ▸ heq)
            · simp

theorem tableSpeakerSeq_no_ve (segs : List Value) (m : String) :
    tableSpeakerSeq segs ≠ .error (.valueError m) := by
  induction segs with
  | nil => simp [tableSpeakerSeq]
  | cons a rest ih =>
    simp only [tableSpeakerSeq]
    split
    · next e heq =>
      intro h
      injection h with h2
      exact segText_no_ve a m (h2 ▸ heq)
    · split
      · exact ih
      · split
        · next e heq =>
          intro h
          injection h with h2
          exact segSpeaker_no_ve a m (h2 ▸ heq)
        · split
          · next e heq =>
            intro h
            injection h with h2
            exact ih (h2 ▸ heq)
          · simp

theorem twoSpeakerLines_no_ve (s0 : String) (b : Bool) (segs : List Value) (m : String) :
    twoSpeakerLines s0 b segs ≠ .error (.valueError m) := by
  induction segs with
  | nil => simp [twoSpeakerLines]
  | cons a rest ih =>
    simp only [twoSpeakerLines]
    split
    · next e heq =>
      intro h
      injection h with h2
      exact segSpeaker_no_ve a m (h2 ▸ heq)
    · split
      · next e heq =>
        intro h
        injection h with h2
        exact segText_no_ve a m (h2 ▸ heq)
      · split
        · exact ih
        · split
          · next e heq =>
            intro h
            injection h with h2
            subst h2
            by_cases hb : b
            · rw [if_pos hb] at heq
              cases hst : segStart a with
              | ok q =>
                rw [hst] at heq
                simp [Except.map] at heq
              | error e2 =>
                rw [hst] at heq
                simp [Except.map] at heq
                exact segStart_no_ve a m (by rw [hst, heq])
            · rw [if_neg hb] at heq
              simp at heq
          · next line hline =>
            split
            · next e heq =>
              intro h
              injection h with h2
              exact ih (h2 ▸ heq)
            · simp

theorem multiSpeakerLines_no_ve (b : Bool) (segs : List Value) (m : String) :
    multiSpeakerLines b segs ≠ .error (.valueError m) := by
  induction segs with
  | nil => simp [multiSpeakerLines]
  | cons a rest ih =>
    simp only [multiSpeakerLines]
    split
    · next e heq =>
      intro h
      injection h with h2
      exact segSpeaker_no_ve a m (h2 ▸ heq)
    · split
      · next e heq =>
        intro h
        injection h with h2
        exact segText_no_ve a m (h2 ▸ heq)
      · split
        · exact ih
        · split
          · next e heq =>
            intro h
            injection h with h2
            subst h2
            by_cases hb : b
            · rw [if_pos hb] at heq
              cases hst : segStart a with
              | ok q =>
                rw [hst] at heq
                simp [Except.map] at heq
              | error e2 =>
                rw [hst] at heq
                simp [Except.map] at heq
                exact segStart_no_ve a m (by rw [hst, heq])
            · rw [if_neg hb] at heq
              simp at heq
          · next line hline =>
            split
            · next e heq =>
              intro h
              injection h with h2
              exact ih (h2 ▸ heq)
            · simp

theorem format_md_basic_no_ve (t : Value) (b : Bool) (m : String) :
    format_md_basic t b ≠ .error (.valueError m) := by
  simp only [format_md_basic]
  split
  · next e heq =>
    intro h
    injection h with h2
    exact get_segments_no_ve t m (h2 ▸ heq)
  · next segs hsegs =>
    split
    · next e heq =>
      intro h
      injection h with h2
      exact mdBasicLines_no_ve b segs m (h2 ▸ heq)
    · simp

theorem format_md_list_no_ve (t : Value) (b : Bool) (m : String) :
    format_md_list t b ≠ .error (.valueError m) := by
  simp only [format_md_list]
  split
  · next e heq =>
    intro h
    injection h with h2
    exact get_segments_no_ve t m (h2 ▸ heq)
  · next segs hsegs =>
    split
    · next e heq =>
      intro h
      injection h with h2
      exact mdListLines_no_ve b segs m (h2 ▸ heq)
    · simp

theorem format_md_quote_no_ve (t : Value) (b : Bool) (m : String) :
    format_md_quote t b ≠ .error (.valueError m) := by
  simp only [format_md_quote]
  split
  · next e heq =>
    intro h
    injection h with h2
    exact get_segments_no_ve t m (h2 ▸ heq)
  · next segs hsegs =>
    split
    · next e heq =>
      intro h
      injection h with h2
      exact mdQuoteLines_no_ve b segs m (h2 ▸ heq)
    · simp

theorem two_table_no_ve (segs : List Value) (s0 s1 : String) (b : Bool) (m : String) :
    _format_two_speaker_table segs s0 s1 b ≠ .error (.valueError m) := by
  simp only [_format_two_speaker_table]
  split
  · next e heq =>
    intro h
    injection h with h2
    exact twoSpeakerLines_no_ve s0 b segs m (h2 ▸ heq)
  · simp

theorem multi_table_no_ve (segs : List Value) (b : Bool) (m : String) :
    _format_multi_speaker_table segs b ≠ .error (.valueError m) := by
  simp only [_format_multi_speaker_table]
  split
  · next e heq =>
    intro h
    injection h with h2
    exact multiSpeakerLines_no_ve b segs m (h2 ▸ heq)
  · simp

theorem format_md_table_no_ve (t : Value) (b : Bool) (m : String) :
    format_md_table t b ≠ .error (.valueError m) := by
  simp only [format_md_table]
  split
  · next e heq =>
    intro h
    injection h with h2
    exact get_segments_no_ve t m (h2 ▸ heq)
  · next segs hsegs =>
    split
    · next e heq =>
      intro h
      injection h with h2
      exact tableSpeakerSeq_no_ve segs m (h2 ▸ heq)
    · next sps hsps =>
      split
      · exact two_table_no_ve segs _ _ b m
      · exact multi_table_no_ve segs b m

theorem pyGet_no_ve (t : Value) (k : String) (d : Value) (m : String) :
    pyGet t k d ≠ .error (.valueError m) := by
  cases t <;> simp [pyGet]

theorem setItem_no_ve (t : Value) (k : String) (v : Value) (m : String) :
    setItem t k v ≠ .error (.valueError m) := by
  cases t <;> simp [setItem]

theorem handle_no_ve (w : Value → List (String × Value) → String) (t : Value)
    (o : List (String × Value)) (m : String) :
    handle_whisperx_format w t o ≠ .error (.valueError m) := by
  cases t with
  | dict kvs =>
    simp only [handle_whisperx_format]
    cases alookup kvs ("language") with
    | none => simp
    | some lang =>
      cases alookup kvs ("segments") with
      | none => simp
      | some v => cases v <;> simp
  | null => simp [handle_whisperx_format]
  | bool b => simp [handle_whisperx_format]
  | num q => simp [handle_whisperx_format]
  | str s => simp [handle_whisperx_format]
  | list xs => simp [handle_whisperx_format]

/-- C2 (amended): format_transcription raises ValueError exactly when the
format argument is not one of the eleven supported format names; a
supported format never raises ValueError (though the writer-based and
markdown formats can raise KeyError/TypeError/AttributeError on ill-shaped
transcripts instead of returning a response). -/
theorem format_transcription_valueError_iff
    (wSRT wVTT wAUD : Value → List (String × Value) → String)
    (t : Value) (fmt : String) (kw : List (String × Value)) :
    (∃ m, format_transcription wSRT wVTT wAUD t fmt kw = .error (Err.valueError m))
      ↔ fmt ∉ supportedFormats := by
  constructor
  · rintro ⟨m, hm⟩ hf
    simp only [supportedFormats, List.mem_cons, List.not_mem_nil, or_false] at hf
    rcases hf with rfl|rfl|rfl|rfl|rfl|rfl|rfl|rfl|rfl|rfl|rfl
    · simp [format_transcription] at hm
      split at hm
      · next e heq =>
        injection hm with h2
        exact pyGet_no_ve t ("text") (Value.str ("")) m (h2 ▸ heq)
      · exact Except.noConfusion hm
    · simp [format_transcription] at hm
    · simp [format_transcription] at hm
      split at hm
      · next e heq =>
        injection hm with h2
        exact handle_no_ve wVTT t _ m (h2 ▸ heq)
      · split at hm
        · next e heq =>
          injection hm with h2
          exact setItem_no_ve _ ("vtt_text") _ m (h2 ▸ heq)
        · exact Except.noConfusion hm
    · simp [format_transcription] at hm
      split at hm
      · next e heq =>
        injection hm with h2
        exact pyGet_no_ve t ("text") (Value.str ("")) m (h2 ▸ heq)
      · exact Except.noConfusion hm
    · simp [format_transcription] at hm
      split at hm
      · next e heq =>
        injection hm with h2
        exact handle_no_ve wSRT t _ m (h2 ▸ heq)
      · exact Except.noConfusion hm
    · simp [format_transcription] at hm
      split at hm
      · next e heq =>
        injection hm with h2
        exact handle_no_ve wVTT t _ m (h2 ▸ heq)
      · exact Except.noConfusion hm
    · simp [format_transcription] at hm
      split at hm
      · next e heq =>
        injection hm with h2
        exact handle_no_ve wAUD t _ m (h2 ▸ heq)
      · exact Except.noConfusion hm
    · simp [format_transcription] at hm
      split at hm
      · next e heq =>
        injection hm with h2
        exact format_md_basic_no_ve t _ m (h2 ▸ heq)
      · exact Except.noConfusion hm
    · simp [format_transcription] at hm
      split at hm
      · next e heq =>
        injection hm with h2
        exact format_md_list_no_ve t _ m (h2 ▸ heq)
      · exact Except.noConfusion hm
    · simp [format_transcription] at hm
      split at hm
      · next e heq =>
        injection hm with h2
        exact format_md_quote_no_ve t _ m (h2 ▸ heq)
      · exact Except.noConfusion hm
    · simp [format_transcription] at hm
      split at hm
      · next e heq =>
        injection hm with h2
        exact format_md_table_no_ve t _ m (h2 ▸ heq)
      · exact Except.noConfusion hm
  · intro hf
    refine ⟨("Unsupported format: ") ++ fmt, ?_⟩
    simp only [supportedFormats, List.mem_cons, List.not_mem_nil, or_false] at hf
    push_neg at hf
    obtain ⟨h1, h2, h3, h4, h5, h6, h7, h8, h9, h10, h11⟩ := hf
    simp [format_transcription, h1, h2, h3, h4, h5, h6, h7, h8, h9, h10, h11]

/-- C2 witness: an unsupported format name raises ValueError. -/
theorem format_transcription_valueError_iff_witness :
    ∃ m, format_transcription wzero wzero wzero (Value.dict []) ("bogus") []
      = .error (Err.valueError m) :=
  (format_transcription_valueError_iff wzero wzero wzero (Value.dict []) ("bogus") []).mpr
    (by decide)

/-- C2 counterexample: the supported format "vtt" raises KeyError — not
nothing — on the transcript `\x7b\x7d`, refuting "for every supported
format name it returns a response and raises no error". -/
theorem format_transcription_supported_raises :
    format_transcription wzero wzero wzero (Value.dict []) ("vtt") []
      = .error (Err.keyError ("language")) := by
  rfl

theorem handle_list_eq (w : Value → List (String × Value) → String)
    (kvs : List (String × Value)) (xs : List Value)
    (hs : alookup kvs ("segments") = some (Value.list xs))
    (o : List (String × Value)) :
    handle_whisperx_format w (Value.dict kvs) o
      = .error (match alookup kvs ("language") with
          | none => Err.keyError ("language")
          | some _ => Err.typeError) := by
  cases hl : alookup kvs ("language") <;> simp [handle_whisperx_format, hl, hs]

theorem format_writer_err (wSRT wVTT wAUD : Value → List (String × Value) → String)
    (kvs : List (String × Value)) (xs : List Value)
    (hs : alookup kvs ("segments") = some (Value.list xs))
    (fmt : String) (kw : List (String × Value))
    (hf : fmt ∈ [("srt"), ("vtt"), ("aud"), ("vtt_json")]) :
    exOk (format_transcription wSRT wVTT wAUD (Value.dict kvs) fmt kw) = false := by
  simp only [List.mem_cons, List.not_mem_nil, or_false] at hf
  rcases hf with rfl|rfl|rfl|rfl <;>
    (simp [format_transcription]
     rw [handle_list_eq _ kvs xs hs]
     simp [exOk])

/-- C10: handle_whisperx_format — and hence format_transcription with the
formats srt, vtt, aud and vtt_json — succeeds only when the transcript has
a "language" key and its "segments" value is a dict; when "segments" is a
plain list (the other shape _get_segments accepts), the in-place assignment
fails with an error instead of producing a response. -/
theorem handle_whisperx_shape (w : Value → List (String × Value) → String)
    (t : Value) (o : List (String × Value)) :
    (exOk (handle_whisperx_format w t o) = true →
      ∃ kvs lang skvs, t = Value.dict kvs
        ∧ alookup kvs ("language") = some lang
        ∧ alookup kvs ("segments") = some (Value.dict skvs))
    ∧ (∀ kvs xs, t = Value.dict kvs →
        alookup kvs ("segments") = some (Value.list xs) →
        exOk (handle_whisperx_format w t o) = false)
    ∧ (∀ kvs xs fmt wSRT wVTT wAUD kw, t = Value.dict kvs →
        alookup kvs ("segments") = some (Value.list xs) →
        fmt ∈ [("srt"), ("vtt"), ("aud"), ("vtt_json")] →
        exOk (format_transcription wSRT wVTT wAUD t fmt kw) = false) := by
  refine ⟨?_, ?_, ?_⟩
  · intro hok
    cases t with
    | dict kvs =>
      cases hl : alookup kvs ("language") with
      | none => simp [handle_whisperx_format, hl, exOk] at hok
      | some lang =>
        cases hs : alookup kvs ("segments") with
        | none => simp [handle_whisperx_format, hl, hs, exOk] at hok
        | some v =>
          cases v with
          | dict skvs => exact ⟨kvs, lang, skvs, rfl, hl, hs⟩
          | null => simp [handle_whisperx_format, hl, hs, exOk] at hok
          | bool b => simp [handle_whisperx_format, hl, hs, exOk] at hok
          | num q => simp [handle_whisperx_format, hl, hs, exOk] at hok
          | str s => simp [handle_whisperx_format, hl, hs, exOk] at hok
          | list xs => simp [handle_whisperx_format, hl, hs, exOk] at hok
    | null => simp [handle_whisperx_format, exOk] at hok
    | bool b => simp [handle_whisperx_format, exOk] at hok
    | num q => simp [handle_whisperx_format, exOk] at hok
    | str s => simp [handle_whisperx_format, exOk] at hok
    | list xs => simp [handle_whisperx_format, exOk] at hok
  · intro kvs xs ht hs
    subst ht
    rw [handle_list_eq w kvs xs hs o]
    rfl
  · intro kvs xs fmt wSRT wVTT wAUD kw ht hs hf
    subst ht
    exact format_writer_err wSRT wVTT wAUD kvs xs hs fmt kw hf

/-- C10 witness: a transcript with "language" and a dict "segments"
succeeds (and satisfies the shape); one whose "segments" is a plain list
makes both handle_whisperx_format and format_transcription with "srt"
fail. -/
theorem handle_whisperx_shape_witness :
    (∃ kvs lang skvs,
        (Value.dict [(("language"), Value.str ("en")), (("segments"), Value.dict [])])
          = Value.dict kvs
        ∧ alookup kvs ("language") = some lang
        ∧ alookup kvs ("segments") = some (Value.dict skvs))
    ∧ exOk (handle_whisperx_format wzero
        (Value.dict [(("segments"), Value.list [])]) []) = false
    ∧ exOk (format_transcription wzero wzero wzero
        (Value.dict [(("segments"), Value.list [])]) ("srt") []) = false := by
  refine ⟨?_, ?_, ?_⟩
  · exact (handle_whisperx_shape wzero
      (Value.dict [(("language"), Value.str ("en")), (("segments"), Value.dict [])]) []).1
      (by rfl)
  · exact (handle_whisperx_shape wzero
      (Value.dict [(("segments"), Value.list [])]) []).2.1 [(("segments"), Value.list [])] []
      rfl rfl
  · exact (handle_whisperx_shape wzero
      (Value.dict [(("segments"), Value.list [])]) []).2.2 [(("segments"), Value.list [])] []
      ("srt") wzero wzero wzero [] rfl rfl (by decide)

/-- C3 (amended): only the seven non-writer formats are pure — for json,
verbose_json, text and the four markdown formats, format_transcription
leaves the input transcript record unchanged (the transcript coming out of
a successful call is the input itself); the writer-based formats srt, vtt,
aud and vtt_json instead mutate it in place. -/
theorem format_transcription_pure_formats
    (wSRT wVTT wAUD : Value → List (String × Value) → String)
    (t : Value) (fmt : String) (kw : List (String × Value))
    (hf : fmt ∈ pureFormats) :
    Except.map Prod.fst (format_transcription wSRT wVTT wAUD t fmt kw)
      = Except.map (fun _ => t) (format_transcription wSRT wVTT wAUD t fmt kw) := by
  simp only [pureFormats, List.mem_cons, List.not_mem_nil, or_false] at hf
  rcases hf with rfl|rfl|rfl|rfl|rfl|rfl|rfl <;>
    (simp [format_transcription]
     first
     | rfl
     | (split <;> rfl))

/-- C3 witness: purity instantiated for md_basic at a concrete transcript. -/
theorem format_transcription_pure_formats_witness :
    Except.map Prod.fst (format_transcription wzero wzero wzero
        (Value.dict [(("text"), Value.str ("hello"))]) ("md_basic") [])
      = Except.map (fun _ => Value.dict [(("text"), Value.str ("hello"))])
        (format_transcription wzero wzero wzero
          (Value.dict [(("text"), Value.str ("hello"))]) ("md_basic") []) :=
  format_transcription_pure_formats wzero wzero wzero
    (Value.dict [(("text"), Value.str ("hello"))]) ("md_basic") [] (by decide)

/-- C3 counterexample: formatting with "srt" adds a "language" key to the
nested "segments" record of the input transcript — the returned transcript
has the key while the input did not — refuting the claim that no key of
the transcript or of its nested segments record is added. -/
theorem format_transcription_mutates :
    Except.map (fun p => segmentsLangPresent p.1)
      (format_transcription wzero wzero wzero
        (Value.dict [(("language"), Value.str ("en")), (("segments"), Value.dict [])])
        ("srt") [])
      = .ok true
    ∧ segmentsLangPresent
        (Value.dict [(("language"), Value.str ("en")), (("segments"), Value.dict [])])
      = false := by
  constructor
  · rfl
  · rfl

/-- C1 (amended): for every supported format, whenever format_transcription
returns a response instead of raising, the response carries the media type
the specification assigns to that format (application/json for the three
JSON formats, text/plain for text, srt and aud, text/vtt for vtt,
text/markdown for the markdown formats); the formats json, verbose_json and
text always return a response on a dict transcript, while the writer-based
and markdown formats can raise on ill-shaped transcripts. -/
theorem format_transcription_media
    (wSRT wVTT wAUD : Value → List (String × Value) → String)
    (t : Value) (fmt : String) (kw : List (String × Value))
    (hf : fmt ∈ supportedFormats) :
    (Except.map (fun p => p.2.media_type)
        (format_transcription wSRT wVTT wAUD t fmt kw)
      = Except.map (fun _ => specMediaType fmt)
        (format_transcription wSRT wVTT wAUD t fmt kw))
    ∧ (∀ kvs, t = Value.dict kvs →
        (fmt = ("json") ∨ fmt = ("verbose_json") ∨ fmt = ("text")) →
        exOk (format_transcription wSRT wVTT wAUD t fmt kw) = true) := by
  simp only [supportedFormats, List.mem_cons, List.not_mem_nil, or_false] at hf
  rcases hf with rfl|rfl|rfl|rfl|rfl|rfl|rfl|rfl|rfl|rfl|rfl
  · constructor
    · simp [format_transcription, specMediaType]
      split <;> rfl
    · intro kvs ht _
      subst ht
      simp [format_transcription, pyGet, exOk]
  · constructor
    · simp [format_transcription, specMediaType]
      rfl
    · intro kvs ht _
      subst ht
      simp [format_transcription, exOk]
  · constructor
    · simp [format_transcription, specMediaType]
      split
      · rfl
      · split <;> rfl
    · intro kvs ht hof
      rcases hof with h|h|h <;> exact absurd h (by decide)
  · constructor
    · simp [format_transcription, specMediaType]
      split <;> rfl
    · intro kvs ht _
      subst ht
      simp [format_transcription, pyGet, exOk]
  · constructor
    · simp [format_transcription, specMediaType]
      split <;> rfl
    · intro kvs ht hof
      rcases hof with h|h|h <;> exact absurd h (by decide)
  · constructor
    · simp [format_transcription, specMediaType]
      split <;> rfl
    · intro kvs ht hof
      rcases hof with h|h|h <;> exact absurd h (by decide)
  · constructor
    · simp [format_transcription, specMediaType]
      split <;> rfl
    · intro kvs ht hof
      rcases hof with h|h|h <;> exact absurd h (by decide)
  · constructor
    · simp [format_transcription, specMediaType]
      split <;> rfl
    · intro kvs ht hof
      rcases hof with h|h|h <;> exact absurd h (by decide)
  · constructor
    · simp [format_transcription, specMediaType]
      split <;> rfl
    · intro kvs ht hof
      rcases hof with h|h|h <;> exact absurd h (by decide)
  · constructor
    · simp [format_transcription, specMediaType]
      split <;> rfl
    · intro kvs ht hof
      rcases hof with h|h|h <;> exact absurd h (by decide)
  · constructor
    · simp [format_transcription, specMediaType]
      split <;> rfl
    · intro kvs ht hof
      rcases hof with h|h|h <;> exact absurd h (by decide)

/-- C1 witness: the media-type equation and the always-returns clause
instantiated at format "json" on the transcript `\x7b\x7d`. -/
theorem format_transcription_media_witness :
    (Except.map (fun p => p.2.media_type)
        (format_transcription wzero wzero wzero (Value.dict []) ("json") [])
      = Except.map (fun _ => specMediaType ("json"))
        (format_transcription wzero wzero wzero (Value.dict []) ("json") []))
    ∧ exOk (format_transcription wzero wzero wzero (Value.dict []) ("json") []) = true :=
  ⟨(format_transcription_media wzero wzero wzero (Value.dict []) ("json") [] (by decide)).1,
   (format_transcription_media wzero wzero wzero (Value.dict []) ("json") [] (by decide)).2
     [] rfl (Or.inl rfl)⟩

/-- C1 counterexample: with the supported format "srt" and the transcript
`\x7b\x7d`, format_transcription raises KeyError — it does not return a
response — refuting "for every transcript dictionary ... returns a
response". -/
theorem format_transcription_no_response :
    format_transcription wzero wzero wzero (Value.dict []) ("srt") []
      = .error (Err.keyError ("language")) := by
  rfl
